import Mathlib

/-!
Shallow embedding of `src/services/engineService.ts` (turbofan cycle solver
and its sweep drivers) over the real numbers, together with proofs settling
the claims about it.

Modelling conventions:
* JavaScript numbers are modelled as real numbers (`ℝ`); `Math.pow` is
  `Real.rpow`, `Math.sqrt` is `Real.sqrt`, `Math.exp` is `Real.exp`,
  `Math.max` is `max`.
* The `isNaN` / `isFinite` sanitisation of lines 275-277 is a no-op in this
  model, since every real number is finite; it is therefore omitted.
* The sequential mutation of `isValid` and of the station variables in the
  source is expressed by explicit staging: each `let`/`if` block of the
  source becomes one definition, named after the quantity it computes, and
  the `isValid` flag after each mutating block gets its own definition.
* The source reads `overallPressureRatio` exactly once (line 102, inside
  `pi_ch`); the solver body is therefore factored as `calculateCycleAux`
  taking the already-clamped HPC pressure ratio as a parameter, with
  `calculateCycle` supplying `max 1.1 (overallPressureRatio/fanPressureRatio)`.
-/

namespace AeroEngine

noncomputable section

open Real

/-- Physical constants, engineService.ts lines 3-5. -/
def R_GAS : ℝ := 287.05

def G : ℝ := 9.80665

/-- ISA atmosphere model, engineService.ts lines 12-29.
Input altitude in km; output (T0 in K, P0 in Pa). -/
def getAtmosphere (altitudeKm : ℝ) : ℝ × ℝ :=
  let H := altitudeKm * 1000
  if H ≤ 11000 then
    (288.15 - 0.0065 * H, 101325 * (1 - 0.0065 * H / 288.15) ^ (5.25588 : ℝ))
  else
    (216.65, 22632.1 * Real.exp (-G * (H - 11000) / (R_GAS * 216.65)))

/-- Gas property tables, engineService.ts lines 33-35. -/
def PROP_COLD_cp : ℝ := 1005

def PROP_COLD_k : ℝ := 1.4

def PROP_HOT_cp : ℝ := 1150

def PROP_HOT_k : ℝ := 1.33

/-- Temperature after an isentropic-with-efficiency process,
engineService.ts lines 40-50. -/
def isentropicT (T_in pr k eta : ℝ) (isCompressor : Bool) : ℝ :=
  let k_minus_1_over_k := (k - 1) / k
  if isCompressor then
    T_in * (1 + (pr ^ k_minus_1_over_k - 1) / eta)
  else
    if pr ≤ 0 then T_in
    else T_in * (1 - (1 - (1 / pr) ^ k_minus_1_over_k) * eta)

/-- engineService.ts line 53. -/
def getGammaExp (k : ℝ) : ℝ := k / (k - 1)

/-- Inlet stagnation conditions, engineService.ts lines 59-67.
Returns (Tt2, Pt2). -/
def getInletConditions (altitude mach recovery : ℝ) : ℝ × ℝ :=
  let T0 := (getAtmosphere altitude).1
  let P0 := (getAtmosphere altitude).2
  let tau_r := 1 + (PROP_COLD_k - 1) / 2 * mach * mach
  let pi_r := tau_r ^ getGammaExp PROP_COLD_k
  (T0 * tau_r, P0 * pi_r * recovery)

/-- The solver's input record, src/unnamed/part_002 (types.ts). -/
structure EngineInputs where
  altitude : ℝ
  mach : ℝ
  massFlow : ℝ
  bypassRatio : ℝ
  overallPressureRatio : ℝ
  fanPressureRatio : ℝ
  turbineEntryTemp : ℝ
  efficiencyFan : ℝ
  efficiencyLPC : ℝ
  efficiencyHPC : ℝ
  efficiencyHPT : ℝ
  efficiencyLPT : ℝ
  efficiencyBurner : ℝ
  pressureRecoveryInlet : ℝ
  pressureRecoveryBurner : ℝ
  pressureRecoveryNozzle : ℝ
  mechEfficiencyHigh : ℝ
  mechEfficiencyLow : ℝ
  heatingValue : ℝ

structure StationResult where
  name : String
  label : String
  temp : ℝ
  pressure : ℝ
  isTotal : Bool

structure PerformanceResult where
  thrust : ℝ
  specificThrust : ℝ
  sfc : ℝ
  massFlowRateAir : ℝ
  fuelAirRatio : ℝ
  bypassVelocity : ℝ
  coreVelocity : ℝ
  thermalEfficiency : ℝ
  propulsiveEfficiency : ℝ
  overallEfficiency : ℝ
  fanPressureRatio : ℝ
  hpcPressureRatio : ℝ
  isValid : Bool

structure CalculationResult where
  stations : List StationResult
  performance : PerformanceResult

structure ChartPoint where
  opr : ℝ
  sfc : ℝ
  specificThrust : ℝ

structure EnvelopePoint where
  mach : ℝ
  altitude : ℝ
  sfc : ℝ
  thrust : ℝ
  isValid : Bool

/-! ### Station-by-station quantities of `calculateCycle`
(engineService.ts lines 72-208).  `pic` is the already-clamped HPC
pressure ratio `pi_ch` of line 102. -/

/-- Ambient static temperature, line 81. -/
def stT0 (i : EngineInputs) : ℝ := (getAtmosphere i.altitude).1

/-- Ambient static pressure, line 81. -/
def stP0 (i : EngineInputs) : ℝ := (getAtmosphere i.altitude).2

/-- Flight velocity, line 82. -/
def stV0 (i : EngineInputs) : ℝ :=
  i.mach * Real.sqrt (PROP_COLD_k * R_GAS * stT0 i)

/-- Ram temperature ratio, line 85. -/
def tauR (i : EngineInputs) : ℝ :=
  1 + (PROP_COLD_k - 1) / 2 * i.mach * i.mach

/-- Ram pressure ratio, line 86. -/
def piRam (i : EngineInputs) : ℝ := tauR i ^ getGammaExp PROP_COLD_k

/-- Inlet-exit total temperature Tt2 = Tt0, lines 88-91. -/
def stTt2 (i : EngineInputs) : ℝ := stT0 i * tauR i

/-- Inlet-exit total pressure Pt2, lines 89-92. -/
def stPt2 (i : EngineInputs) : ℝ :=
  stP0 i * piRam i * i.pressureRecoveryInlet

/-- Fan-exit total pressure Pt13 (= Pt21), line 95. -/
def stPt13 (i : EngineInputs) : ℝ := stPt2 i * i.fanPressureRatio

/-- Fan-exit total temperature Tt13 (= Tt21), line 96. -/
def stTt13 (i : EngineInputs) : ℝ :=
  isentropicT (stTt2 i) i.fanPressureRatio PROP_COLD_k i.efficiencyFan true

/-- Clamped HPC pressure ratio `pi_ch`, line 102. -/
def hpcRatio (i : EngineInputs) : ℝ :=
  max 1.1 (i.overallPressureRatio / i.fanPressureRatio)

/-- HPC-exit total pressure Pt3, line 104. -/
def stPt3 (i : EngineInputs) (pic : ℝ) : ℝ := stPt13 i * pic

/-- HPC-exit total temperature Tt3, line 105. -/
def stTt3 (i : EngineInputs) (pic : ℝ) : ℝ :=
  isentropicT (stTt13 i) pic PROP_COLD_k i.efficiencyHPC true

/-- Burner-exit total pressure Pt4, line 108. -/
def stPt4 (i : EngineInputs) (pic : ℝ) : ℝ :=
  stPt3 i pic * i.pressureRecoveryBurner

/-- Burner-exit total temperature Tt4 (the TIT input), line 109. -/
def stTt4 (i : EngineInputs) : ℝ := i.turbineEntryTemp

/-- Fuel-air ratio f, lines 112-115. -/
def fuelAir (i : EngineInputs) (pic : ℝ) : ℝ :=
  max 0 ((PROP_HOT_cp * stTt4 i - PROP_COLD_cp * stTt3 i pic) /
    (i.efficiencyBurner * (i.heatingValue * 1e6) - PROP_HOT_cp * stTt4 i))

/-- HPT temperature drop, lines 118-121. -/
def deltaT_HPT (i : EngineInputs) (pic : ℝ) : ℝ :=
  (PROP_COLD_cp * (stTt3 i pic - stTt13 i) / i.mechEfficiencyHigh) /
    ((1 + fuelAir i pic) * PROP_HOT_cp)

/-- HPT-exit total temperature Tt45, line 122. -/
def stTt45 (i : EngineInputs) (pic : ℝ) : ℝ := stTt4 i - deltaT_HPT i pic

/-- `isValid` after the line-127 check `Tt45 < Tt3`. -/
def validA (i : EngineInputs) (pic : ℝ) : Bool :=
  if stTt45 i pic < stTt3 i pic then false else true

/-- HPT pressure block, lines 129-139: yields (Pt45, isValid afterwards). -/
def hptStage (i : EngineInputs) (pic : ℝ) : ℝ × Bool :=
  let ratio := stTt45 i pic / stTt4 i
  if ratio ≤ 0 ∨ ratio ≥ 1 then (stPt4 i pic, false)
  else
    let pterm := (1 - ratio) / i.efficiencyHPT
    if pterm ≥ 1 then (stPt4 i pic, false)
    else (stPt4 i pic / (1 / (1 - pterm)) ^ getGammaExp PROP_HOT_k,
      validA i pic)

def stPt45 (i : EngineInputs) (pic : ℝ) : ℝ := (hptStage i pic).1

def validB (i : EngineInputs) (pic : ℝ) : Bool := (hptStage i pic).2

/-- LPT temperature drop, lines 143-146 (fan drive, bypass-weighted). -/
def deltaT_LPT (i : EngineInputs) (pic : ℝ) : ℝ :=
  ((1 + i.bypassRatio) * PROP_COLD_cp * (stTt13 i - stTt2 i) /
    i.mechEfficiencyLow) / ((1 + fuelAir i pic) * PROP_HOT_cp)

/-- LPT-exit total temperature Tt5, line 147. -/
def stTt5 (i : EngineInputs) (pic : ℝ) : ℝ :=
  stTt45 i pic - deltaT_LPT i pic

/-- `isValid` after the line-151 check `Tt5 < T0`. -/
def validC (i : EngineInputs) (pic : ℝ) : Bool :=
  if stTt5 i pic < stT0 i then false else validB i pic

/-- LPT pressure block, lines 153-163: yields (Pt5, isValid afterwards). -/
def lptStage (i : EngineInputs) (pic : ℝ) : ℝ × Bool :=
  let ratio := stTt5 i pic / stTt45 i pic
  if ratio ≤ 0 ∨ ratio ≥ 1 then (stPt45 i pic, false)
  else
    let pterm := (1 - ratio) / i.efficiencyLPT
    if pterm ≥ 1 then (stPt45 i pic, false)
    else (stPt45 i pic / (1 / (1 - pterm)) ^ getGammaExp PROP_HOT_k,
      validC i pic)

def stPt5 (i : EngineInputs) (pic : ℝ) : ℝ := (lptStage i pic).1

def validAfterLPT (i : EngineInputs) (pic : ℝ) : Bool := (lptStage i pic).2

/-- Core-nozzle total pressure Pt9, line 167. -/
def stPt9 (i : EngineInputs) (pic : ℝ) : ℝ :=
  stPt5 i pic * i.pressureRecoveryNozzle

/-- Hot-side critical pressure ratio, line 173. -/
def critRatioHot : ℝ := ((PROP_HOT_k + 1) / 2) ^ getGammaExp PROP_HOT_k

/-- Core nozzle block, lines 168-187: yields (P9, T9, V9, isValid). -/
def coreNozzle (i : EngineInputs) (pic : ℝ) : ℝ × ℝ × ℝ × Bool :=
  if validAfterLPT i pic = true then
    if stPt9 i pic / stP0 i > critRatioHot then
      let T9 := stTt5 i pic * (2 / (PROP_HOT_k + 1))
      (stPt9 i pic / critRatioHot, T9, Real.sqrt (PROP_HOT_k * R_GAS * T9),
        validAfterLPT i pic)
    else
      if stPt9 i pic > stP0 i then
        let T9 := stTt5 i pic *
          (stP0 i / stPt9 i pic) ^ ((PROP_HOT_k - 1) / PROP_HOT_k)
        (stP0 i, T9,
          Real.sqrt (max 0 (2 * PROP_HOT_cp * (stTt5 i pic - T9))),
          validAfterLPT i pic)
      else (stP0 i, stTt5 i pic, 0, false)
  else (stP0 i, stTt5 i pic, 0, validAfterLPT i pic)

/-- The final `isValid` flag: nothing after lines 168-187 mutates it. -/
def validFinal (i : EngineInputs) (pic : ℝ) : Bool :=
  (coreNozzle i pic).2.2.2

/-- Bypass-nozzle total pressure Pt19, line 190. -/
def stPt19 (i : EngineInputs) : ℝ :=
  stPt13 i * i.pressureRecoveryNozzle

/-- Cold-side critical pressure ratio, line 196. -/
def critRatioCold : ℝ := ((PROP_COLD_k + 1) / 2) ^ getGammaExp PROP_COLD_k

/-- Bypass nozzle block, lines 191-208: yields (P19, T19, V19).
Note that, unlike the core block, it never writes `isValid`. -/
def bypassNozzle (i : EngineInputs) (pic : ℝ) : ℝ × ℝ × ℝ :=
  if validFinal i pic = true then
    if stPt19 i / stP0 i > critRatioCold then
      let T19 := stTt13 i * (2 / (PROP_COLD_k + 1))
      (stPt19 i / critRatioCold, T19, Real.sqrt (PROP_COLD_k * R_GAS * T19))
    else
      if stPt19 i > stP0 i then
        let T19 := stTt13 i *
          (stP0 i / stPt19 i) ^ ((PROP_COLD_k - 1) / PROP_COLD_k)
        (stP0 i, T19,
          Real.sqrt (max 0 (2 * PROP_COLD_cp * (stTt13 i - T19))))
      else (stP0 i, stTt13 i, 0)
  else (stP0 i, stTt13 i, 0)

/-! ### Performance aggregation (engineService.ts lines 210-278).
Each derived quantity of the `if (isValid)` block (lines 218-272) becomes a
definition; the block's guard reappears as the guard of every quantity that
the source only assigns inside it. -/

def rho9Of (i : EngineInputs) (pic : ℝ) : ℝ :=
  (coreNozzle i pic).1 / (R_GAS * (coreNozzle i pic).2.1)

def A9Of (i : EngineInputs) (pic : ℝ) : ℝ :=
  (1 + fuelAir i pic) / (rho9Of i pic * (coreNozzle i pic).2.2.1)

/-- Core-stream thrust per unit core flow, line 222. -/
def FcoreOf (i : EngineInputs) (pic : ℝ) : ℝ :=
  (1 + fuelAir i pic) * (coreNozzle i pic).2.2.1 - 1 * stV0 i +
    ((coreNozzle i pic).1 - stP0 i) * A9Of i pic

def rho19Of (i : EngineInputs) (pic : ℝ) : ℝ :=
  (bypassNozzle i pic).1 / (R_GAS * (bypassNozzle i pic).2.1)

def A19Of (i : EngineInputs) (pic : ℝ) : ℝ :=
  i.bypassRatio / (rho19Of i pic * (bypassNozzle i pic).2.2)

/-- Bypass-stream thrust per unit core flow, line 227. -/
def FbypassOf (i : EngineInputs) (pic : ℝ) : ℝ :=
  i.bypassRatio * (bypassNozzle i pic).2.2 - i.bypassRatio * stV0 i +
    ((bypassNozzle i pic).1 - stP0 i) * A19Of i pic

/-- Specific thrust, line 230 (0 when the cycle is invalid, line 211). -/
def specificThrustOf (i : EngineInputs) (pic : ℝ) : ℝ :=
  if validFinal i pic = true then
    (FcoreOf i pic + FbypassOf i pic) / (1 + i.bypassRatio)
  else 0

/-- Net thrust, line 233; equals 0 · massFlow when invalid (line 212). -/
def totalThrustOf (i : EngineInputs) (pic : ℝ) : ℝ :=
  specificThrustOf i pic * i.massFlow

/-- SFC, lines 236-239 (assigned only when valid and thrust positive). -/
def sfcOf (i : EngineInputs) (pic : ℝ) : ℝ :=
  if validFinal i pic = true ∧ totalThrustOf i pic > 0 then
    fuelAir i pic * (i.massFlow / (1 + i.bypassRatio)) * 3600 /
      totalThrustOf i pic
  else 0

/-- Effective core exhaust velocity, lines 246-249. -/
def V9effOf (i : EngineInputs) (pic : ℝ) : ℝ :=
  if (coreNozzle i pic).2.2.1 > 1 ∧ rho9Of i pic > 0 then
    (coreNozzle i pic).2.2.1 +
      ((coreNozzle i pic).1 - stP0 i) /
        (rho9Of i pic * (coreNozzle i pic).2.2.1)
  else (coreNozzle i pic).2.2.1

/-- Effective bypass exhaust velocity, lines 251-254. -/
def V19effOf (i : EngineInputs) (pic : ℝ) : ℝ :=
  if (bypassNozzle i pic).2.2 > 1 ∧ rho19Of i pic > 0 then
    (bypassNozzle i pic).2.2 +
      ((bypassNozzle i pic).1 - stP0 i) /
        (rho19Of i pic * (bypassNozzle i pic).2.2)
  else (bypassNozzle i pic).2.2

def mCoreOf (i : EngineInputs) : ℝ := i.massFlow / (1 + i.bypassRatio)

/-- Effective output kinetic energy, line 259. -/
def KEoutOf (i : EngineInputs) (pic : ℝ) : ℝ :=
  0.5 * mCoreOf i * (1 + fuelAir i pic) * V9effOf i pic ^ 2 +
    0.5 * (i.massFlow - mCoreOf i) * V19effOf i pic ^ 2

/-- Input kinetic energy, line 260. -/
def KEinOf (i : EngineInputs) : ℝ := 0.5 * i.massFlow * stV0 i ^ 2

/-- Fuel energy input, line 263. -/
def QinOf (i : EngineInputs) (pic : ℝ) : ℝ :=
  mCoreOf i * fuelAir i pic * (i.heatingValue * 1e6)

/-- Thermal efficiency, line 266 (0 outside its guards). -/
def thermalEffOf (i : EngineInputs) (pic : ℝ) : ℝ :=
  if validFinal i pic = true ∧ QinOf i pic > 0 then
    (KEoutOf i pic - KEinOf i) / QinOf i pic
  else 0

/-- Propulsive efficiency before the final clamp, line 268. -/
def propEffRawOf (i : EngineInputs) (pic : ℝ) : ℝ :=
  if validFinal i pic = true ∧ QinOf i pic > 0 ∧
      KEoutOf i pic - KEinOf i > 0 then
    totalThrustOf i pic * stV0 i / (KEoutOf i pic - KEinOf i)
  else 0

/-- Overall efficiency, line 271: uses the unclamped propulsive value. -/
def overallEffOf (i : EngineInputs) (pic : ℝ) : ℝ :=
  thermalEffOf i pic * propEffRawOf i pic

/-- Final propulsive-efficiency clamp, line 278. -/
def propEffOf (i : EngineInputs) (pic : ℝ) : ℝ :=
  if propEffRawOf i pic > 1.0 then 0.999 else propEffRawOf i pic

/-- The returned performance record, lines 292-306. -/
def performanceOf (i : EngineInputs) (pic : ℝ) : PerformanceResult where
  thrust := totalThrustOf i pic
  specificThrust := specificThrustOf i pic
  sfc := sfcOf i pic
  massFlowRateAir := i.massFlow
  fuelAirRatio := fuelAir i pic
  bypassVelocity := (bypassNozzle i pic).2.2
  coreVelocity := (coreNozzle i pic).2.2.1
  thermalEfficiency := thermalEffOf i pic
  propulsiveEfficiency := propEffOf i pic
  overallEfficiency := overallEffOf i pic
  fanPressureRatio := i.fanPressureRatio
  hpcPressureRatio := pic
  isValid := validFinal i pic

/-- The returned station list, lines 281-291. -/
def stationsOf (i : EngineInputs) (pic : ℝ) : List StationResult :=
  [⟨"环境 (Ambient)", "0", stT0 i, stP0 i, false⟩,
   ⟨"进气道出口 (Inlet)", "2", stTt2 i, stPt2 i, true⟩,
   ⟨"风扇出口 (Fan)", "2.5", stTt13 i, stPt13 i, true⟩,
   ⟨"高压压气机出口 (HPC)", "3", stTt3 i pic, stPt3 i pic, true⟩,
   ⟨"燃烧室出口 (Burner)", "4", stTt4 i, stPt4 i pic, true⟩,
   ⟨"高压涡轮出口 (HPT)", "4.5", stTt45 i pic, stPt45 i pic, true⟩,
   ⟨"低压涡轮出口 (LPT)", "5", stTt5 i pic, stPt5 i pic, true⟩,
   ⟨"核心喷管 (Core Nozzle)", "9", (coreNozzle i pic).2.1,
     (coreNozzle i pic).1, false⟩,
   ⟨"外涵喷管 (Bypass Nozzle)", "19", (bypassNozzle i pic).2.1,
     (bypassNozzle i pic).1, false⟩]

/-- Solver body with the clamped HPC ratio as explicit parameter. -/
def calculateCycleAux (i : EngineInputs) (pic : ℝ) : CalculationResult :=
  ⟨stationsOf i pic, performanceOf i pic⟩

/-- The cycle solver, engineService.ts lines 72-308. -/
def calculateCycle (i : EngineInputs) : CalculationResult :=
  calculateCycleAux i (hpcRatio i)

/-- OPR sweep, engineService.ts lines 310-326: opr = 10, 11, ..., 60. -/
def calculateTrends (baseInputs : EngineInputs) : List ChartPoint :=
  (List.range 51).filterMap fun k : ℕ =>
    let opr : ℝ := 10 + (k : ℝ)
    if opr ≤ baseInputs.fanPressureRatio then none
    else
      let res := calculateCycle { baseInputs with overallPressureRatio := opr }
      if res.performance.isValid = true ∧ res.performance.specificThrust > 0
      then some ⟨opr, res.performance.sfc, res.performance.specificThrust⟩
      else none

/-- Flight-envelope sweep, engineService.ts lines 379-422:
a 51 × 41 (Mach-major, altitude-minor) grid with corrected-flow scaling. -/
def calculateEnvelope (baseInputs : EngineInputs) : List EnvelopePoint :=
  (List.range 51).flatMap fun iStep : ℕ =>
    (List.range 41).filterMap fun jStep : ℕ =>
      let m : ℝ := (iStep : ℝ) / 50 * 2.5
      let h : ℝ := (jStep : ℝ) / 40 * 20
      let inlet := getInletConditions h m baseInputs.pressureRecoveryInlet
      let theta := inlet.1 / 288.15
      let delta := inlet.2 / 101325
      let physicalMassFlow := baseInputs.massFlow * (delta / Real.sqrt theta)
      let res := calculateCycle
        { baseInputs with altitude := h, mach := m, massFlow := physicalMassFlow }
      if res.performance.isValid = true ∧ res.performance.thrust > 0
      then some ⟨m, h, res.performance.sfc, res.performance.thrust, true⟩
      else none

/-- The modified input solved at envelope cell (iStep, jStep): that cell's
altitude and Mach together with the corrected-flow-scaled mass flow
(engineService.ts lines 397-407). -/
def envCell (base : EngineInputs) (iStep jStep : ℕ) : EngineInputs :=
  { base with
    altitude := (jStep : ℝ) / 40 * 20
    mach := (iStep : ℝ) / 50 * 2.5
    massFlow := base.massFlow *
      ((getInletConditions ((jStep : ℝ) / 40 * 20) ((iStep : ℝ) / 50 * 2.5)
          base.pressureRecoveryInlet).2 / 101325 /
        Real.sqrt ((getInletConditions ((jStep : ℝ) / 40 * 20) ((iStep : ℝ) / 50 * 2.5)
          base.pressureRecoveryInlet).1 / 288.15)) }

/-! ### Concrete operating points used to exercise the theorems.
All share altitude 0, OPR = 1.32⁷, FPR = 1.1⁷ (so that the ram, fan and HPC
pressure-ratio powers evaluate exactly), unit component efficiencies and
recoveries, and heating value 43.1 MJ/kg; they vary Mach, TIT, bypass
ratio, mass flow and nozzle pressure recovery. -/
def famInputs (M t B m s : ℝ) : EngineInputs where
  altitude := 0
  mach := M
  massFlow := m
  bypassRatio := B
  overallPressureRatio := 1.32 ^ 7
  fanPressureRatio := 1.1 ^ 7
  turbineEntryTemp := t
  efficiencyFan := 1
  efficiencyLPC := 1
  efficiencyHPC := 1
  efficiencyHPT := 1
  efficiencyLPT := 1
  efficiencyBurner := 1
  pressureRecoveryInlet := 1
  pressureRecoveryBurner := 1
  pressureRecoveryNozzle := s
  mechEfficiencyHigh := 1
  mechEfficiencyLow := 1
  heatingValue := 43.1

/-- Static sea-level point whose core nozzle is unchoked with Pt9 below
ambient (σ_nozzle = 0.01), so the core-nozzle stage invalidates it. -/
def exInvalidCore : EngineInputs := famInputs 0 2000 1 1 0.01

/-- Static sea-level point that stays valid through the core nozzle while
its bypass nozzle is unchoked with Pt19 below ambient (σ_nozzle = 0.42). -/
def exBypassHole : EngineInputs := famInputs 0 2000 1 1 0.42

/-- Mach-2.2 family with TIT 1328.56 K, zero bypass and σ_nozzle = 0.05,
parametric in the input mass flow: the tiny nozzle pressure recovery leaves
the core nozzle barely above ambient (unchoked), so the exhaust velocity is
far below the flight velocity and the specific thrust is negative while the
cycle remains valid throughout. -/
def famDrag (m : ℝ) : EngineInputs := famInputs 2.2 1328.56 0 m 0.05

/-- Valid supersonic ram-drag point with unit (nonnegative) mass flow whose
net thrust is strictly negative. -/
def exDrag : EngineInputs := famDrag 1

/-- The same gas path with mass flow −1: the net thrust flips positive, the
fuel flow flips negative, and the reported SFC comes out strictly negative. -/
def exDragNeg : EngineInputs := famDrag (-1)

/-- Low turbine-entry temperature point: Tt45 falls below Tt3, so the HPT
energy balance invalidates the cycle. -/
def exLowTIT : EngineInputs := famInputs 0 600 1 1 0.5

/-- Mach-2.2 choked-core point tuned so that the raw propulsive efficiency
lands strictly between 0.999 and 1. -/
def exPeWindow : EngineInputs := famInputs 2.2 1328.56 0 1 0.25

/-- Point with overallPressureRatio/fanPressureRatio < 1.1, exercising the
silent HPC-ratio floor. -/
def exClampFloor : EngineInputs :=
  { famInputs 0 2000 1 1 0.5 with overallPressureRatio := 1, fanPressureRatio := 2 }

/-- `i` with the two solver-unread fields (`overallPressureRatio`,
`efficiencyLPC`) zeroed; normal form for input-insensitivity lemmas. -/
def stripped (i : EngineInputs) : EngineInputs :=
  { i with overallPressureRatio := 0, efficiencyLPC := 0 }

end

/-! ## Helper lemmas: the solver never reads `overallPressureRatio` (it is
consumed once, in `hpcRatio`) or `efficiencyLPC`.  `stripped` zeroes those
two fields; every stage is invariant under it. -/

theorem stripped_altitude (i : EngineInputs) : (stripped i).altitude = i.altitude := rfl

theorem stripped_mach (i : EngineInputs) : (stripped i).mach = i.mach := rfl

theorem stripped_massFlow (i : EngineInputs) : (stripped i).massFlow = i.massFlow := rfl

theorem stripped_bypassRatio (i : EngineInputs) : (stripped i).bypassRatio = i.bypassRatio := rfl

theorem stripped_fanPressureRatio (i : EngineInputs) : (stripped i).fanPressureRatio = i.fanPressureRatio := rfl

theorem stripped_turbineEntryTemp (i : EngineInputs) : (stripped i).turbineEntryTemp = i.turbineEntryTemp := rfl

theorem stripped_efficiencyFan (i : EngineInputs) : (stripped i).efficiencyFan = i.efficiencyFan := rfl

theorem stripped_efficiencyHPC (i : EngineInputs) : (stripped i).efficiencyHPC = i.efficiencyHPC := rfl

theorem stripped_efficiencyHPT (i : EngineInputs) : (stripped i).efficiencyHPT = i.efficiencyHPT := rfl

theorem stripped_efficiencyLPT (i : EngineInputs) : (stripped i).efficiencyLPT = i.efficiencyLPT := rfl

theorem stripped_efficiencyBurner (i : EngineInputs) : (stripped i).efficiencyBurner = i.efficiencyBurner := rfl

theorem stripped_pressureRecoveryInlet (i : EngineInputs) : (stripped i).pressureRecoveryInlet = i.pressureRecoveryInlet := rfl

theorem stripped_pressureRecoveryBurner (i : EngineInputs) : (stripped i).pressureRecoveryBurner = i.pressureRecoveryBurner := rfl

theorem stripped_pressureRecoveryNozzle (i : EngineInputs) : (stripped i).pressureRecoveryNozzle = i.pressureRecoveryNozzle := rfl

theorem stripped_mechEfficiencyHigh (i : EngineInputs) : (stripped i).mechEfficiencyHigh = i.mechEfficiencyHigh := rfl

theorem stripped_mechEfficiencyLow (i : EngineInputs) : (stripped i).mechEfficiencyLow = i.mechEfficiencyLow := rfl

theorem stripped_heatingValue (i : EngineInputs) : (stripped i).heatingValue = i.heatingValue := rfl
theorem stT0_stripped (i : EngineInputs) :
    stT0 (stripped i) = stT0 i := by
  unfold stT0
  simp only [stripped_altitude, stripped_mach, stripped_massFlow, stripped_bypassRatio, stripped_fanPressureRatio, stripped_turbineEntryTemp, stripped_efficiencyFan, stripped_efficiencyHPC, stripped_efficiencyHPT, stripped_efficiencyLPT, stripped_efficiencyBurner, stripped_pressureRecoveryInlet, stripped_pressureRecoveryBurner, stripped_pressureRecoveryNozzle, stripped_mechEfficiencyHigh, stripped_mechEfficiencyLow, stripped_heatingValue]

theorem stP0_stripped (i : EngineInputs) :
    stP0 (stripped i) = stP0 i := by
  unfold stP0
  simp only [stripped_altitude, stripped_mach, stripped_massFlow, stripped_bypassRatio, stripped_fanPressureRatio, stripped_turbineEntryTemp, stripped_efficiencyFan, stripped_efficiencyHPC, stripped_efficiencyHPT, stripped_efficiencyLPT, stripped_efficiencyBurner, stripped_pressureRecoveryInlet, stripped_pressureRecoveryBurner, stripped_pressureRecoveryNozzle, stripped_mechEfficiencyHigh, stripped_mechEfficiencyLow, stripped_heatingValue]

theorem stV0_stripped (i : EngineInputs) :
    stV0 (stripped i) = stV0 i := by
  unfold stV0
  simp only [stT0_stripped, stripped_altitude, stripped_mach, stripped_massFlow, stripped_bypassRatio, stripped_fanPressureRatio, stripped_turbineEntryTemp, stripped_efficiencyFan, stripped_efficiencyHPC, stripped_efficiencyHPT, stripped_efficiencyLPT, stripped_efficiencyBurner, stripped_pressureRecoveryInlet, stripped_pressureRecoveryBurner, stripped_pressureRecoveryNozzle, stripped_mechEfficiencyHigh, stripped_mechEfficiencyLow, stripped_heatingValue]

theorem tauR_stripped (i : EngineInputs) :
    tauR (stripped i) = tauR i := by
  unfold tauR
  simp only [stripped_altitude, stripped_mach, stripped_massFlow, stripped_bypassRatio, stripped_fanPressureRatio, stripped_turbineEntryTemp, stripped_efficiencyFan, stripped_efficiencyHPC, stripped_efficiencyHPT, stripped_efficiencyLPT, stripped_efficiencyBurner, stripped_pressureRecoveryInlet, stripped_pressureRecoveryBurner, stripped_pressureRecoveryNozzle, stripped_mechEfficiencyHigh, stripped_mechEfficiencyLow, stripped_heatingValue]

theorem piRam_stripped (i : EngineInputs) :
    piRam (stripped i) = piRam i := by
  unfold piRam
  simp only [tauR_stripped, stripped_altitude, stripped_mach, stripped_massFlow, stripped_bypassRatio, stripped_fanPressureRatio, stripped_turbineEntryTemp, stripped_efficiencyFan, stripped_efficiencyHPC, stripped_efficiencyHPT, stripped_efficiencyLPT, stripped_efficiencyBurner, stripped_pressureRecoveryInlet, stripped_pressureRecoveryBurner, stripped_pressureRecoveryNozzle, stripped_mechEfficiencyHigh, stripped_mechEfficiencyLow, stripped_heatingValue]

theorem stTt2_stripped (i : EngineInputs) :
    stTt2 (stripped i) = stTt2 i := by
  unfold stTt2
  simp only [stT0_stripped, tauR_stripped, stripped_altitude, stripped_mach, stripped_massFlow, stripped_bypassRatio, stripped_fanPressureRatio, stripped_turbineEntryTemp, stripped_efficiencyFan, stripped_efficiencyHPC, stripped_efficiencyHPT, stripped_efficiencyLPT, stripped_efficiencyBurner, stripped_pressureRecoveryInlet, stripped_pressureRecoveryBurner, stripped_pressureRecoveryNozzle, stripped_mechEfficiencyHigh, stripped_mechEfficiencyLow, stripped_heatingValue]

theorem stPt2_stripped (i : EngineInputs) :
    stPt2 (stripped i) = stPt2 i := by
  unfold stPt2
  simp only [stP0_stripped, piRam_stripped, stripped_altitude, stripped_mach, stripped_massFlow, stripped_bypassRatio, stripped_fanPressureRatio, stripped_turbineEntryTemp, stripped_efficiencyFan, stripped_efficiencyHPC, stripped_efficiencyHPT, stripped_efficiencyLPT, stripped_efficiencyBurner, stripped_pressureRecoveryInlet, stripped_pressureRecoveryBurner, stripped_pressureRecoveryNozzle, stripped_mechEfficiencyHigh, stripped_mechEfficiencyLow, stripped_heatingValue]

theorem stPt13_stripped (i : EngineInputs) :
    stPt13 (stripped i) = stPt13 i := by
  unfold stPt13
  simp only [stPt2_stripped, stripped_altitude, stripped_mach, stripped_massFlow, stripped_bypassRatio, stripped_fanPressureRatio, stripped_turbineEntryTemp, stripped_efficiencyFan, stripped_efficiencyHPC, stripped_efficiencyHPT, stripped_efficiencyLPT, stripped_efficiencyBurner, stripped_pressureRecoveryInlet, stripped_pressureRecoveryBurner, stripped_pressureRecoveryNozzle, stripped_mechEfficiencyHigh, stripped_mechEfficiencyLow, stripped_heatingValue]

theorem stTt13_stripped (i : EngineInputs) :
    stTt13 (stripped i) = stTt13 i := by
  unfold stTt13
  simp only [stTt2_stripped, stripped_altitude, stripped_mach, stripped_massFlow, stripped_bypassRatio, stripped_fanPressureRatio, stripped_turbineEntryTemp, stripped_efficiencyFan, stripped_efficiencyHPC, stripped_efficiencyHPT, stripped_efficiencyLPT, stripped_efficiencyBurner, stripped_pressureRecoveryInlet, stripped_pressureRecoveryBurner, stripped_pressureRecoveryNozzle, stripped_mechEfficiencyHigh, stripped_mechEfficiencyLow, stripped_heatingValue]

theorem stPt3_stripped (i : EngineInputs) (pic : ℝ) :
    stPt3 (stripped i) pic = stPt3 i pic := by
  unfold stPt3
  simp only [stPt13_stripped, stripped_altitude, stripped_mach, stripped_massFlow, stripped_bypassRatio, stripped_fanPressureRatio, stripped_turbineEntryTemp, stripped_efficiencyFan, stripped_efficiencyHPC, stripped_efficiencyHPT, stripped_efficiencyLPT, stripped_efficiencyBurner, stripped_pressureRecoveryInlet, stripped_pressureRecoveryBurner, stripped_pressureRecoveryNozzle, stripped_mechEfficiencyHigh, stripped_mechEfficiencyLow, stripped_heatingValue]

theorem stTt3_stripped (i : EngineInputs) (pic : ℝ) :
    stTt3 (stripped i) pic = stTt3 i pic := by
  unfold stTt3
  simp only [stTt13_stripped, stripped_altitude, stripped_mach, stripped_massFlow, stripped_bypassRatio, stripped_fanPressureRatio, stripped_turbineEntryTemp, stripped_efficiencyFan, stripped_efficiencyHPC, stripped_efficiencyHPT, stripped_efficiencyLPT, stripped_efficiencyBurner, stripped_pressureRecoveryInlet, stripped_pressureRecoveryBurner, stripped_pressureRecoveryNozzle, stripped_mechEfficiencyHigh, stripped_mechEfficiencyLow, stripped_heatingValue]

theorem stPt4_stripped (i : EngineInputs) (pic : ℝ) :
    stPt4 (stripped i) pic = stPt4 i pic := by
  unfold stPt4
  simp only [stPt3_stripped, stripped_altitude, stripped_mach, stripped_massFlow, stripped_bypassRatio, stripped_fanPressureRatio, stripped_turbineEntryTemp, stripped_efficiencyFan, stripped_efficiencyHPC, stripped_efficiencyHPT, stripped_efficiencyLPT, stripped_efficiencyBurner, stripped_pressureRecoveryInlet, stripped_pressureRecoveryBurner, stripped_pressureRecoveryNozzle, stripped_mechEfficiencyHigh, stripped_mechEfficiencyLow, stripped_heatingValue]

theorem stTt4_stripped (i : EngineInputs) :
    stTt4 (stripped i) = stTt4 i := by
  unfold stTt4
  simp only [stripped_altitude, stripped_mach, stripped_massFlow, stripped_bypassRatio, stripped_fanPressureRatio, stripped_turbineEntryTemp, stripped_efficiencyFan, stripped_efficiencyHPC, stripped_efficiencyHPT, stripped_efficiencyLPT, stripped_efficiencyBurner, stripped_pressureRecoveryInlet, stripped_pressureRecoveryBurner, stripped_pressureRecoveryNozzle, stripped_mechEfficiencyHigh, stripped_mechEfficiencyLow, stripped_heatingValue]

theorem fuelAir_stripped (i : EngineInputs) (pic : ℝ) :
    fuelAir (stripped i) pic = fuelAir i pic := by
  unfold fuelAir
  simp only [stTt4_stripped, stTt3_stripped, stripped_altitude, stripped_mach, stripped_massFlow, stripped_bypassRatio, stripped_fanPressureRatio, stripped_turbineEntryTemp, stripped_efficiencyFan, stripped_efficiencyHPC, stripped_efficiencyHPT, stripped_efficiencyLPT, stripped_efficiencyBurner, stripped_pressureRecoveryInlet, stripped_pressureRecoveryBurner, stripped_pressureRecoveryNozzle, stripped_mechEfficiencyHigh, stripped_mechEfficiencyLow, stripped_heatingValue]

theorem deltaT_HPT_stripped (i : EngineInputs) (pic : ℝ) :
    deltaT_HPT (stripped i) pic = deltaT_HPT i pic := by
  unfold deltaT_HPT
  simp only [stTt3_stripped, stTt13_stripped, fuelAir_stripped, stripped_altitude, stripped_mach, stripped_massFlow, stripped_bypassRatio, stripped_fanPressureRatio, stripped_turbineEntryTemp, stripped_efficiencyFan, stripped_efficiencyHPC, stripped_efficiencyHPT, stripped_efficiencyLPT, stripped_efficiencyBurner, stripped_pressureRecoveryInlet, stripped_pressureRecoveryBurner, stripped_pressureRecoveryNozzle, stripped_mechEfficiencyHigh, stripped_mechEfficiencyLow, stripped_heatingValue]

theorem stTt45_stripped (i : EngineInputs) (pic : ℝ) :
    stTt45 (stripped i) pic = stTt45 i pic := by
  unfold stTt45
  simp only [stTt4_stripped, deltaT_HPT_stripped, stripped_altitude, stripped_mach, stripped_massFlow, stripped_bypassRatio, stripped_fanPressureRatio, stripped_turbineEntryTemp, stripped_efficiencyFan, stripped_efficiencyHPC, stripped_efficiencyHPT, stripped_efficiencyLPT, stripped_efficiencyBurner, stripped_pressureRecoveryInlet, stripped_pressureRecoveryBurner, stripped_pressureRecoveryNozzle, stripped_mechEfficiencyHigh, stripped_mechEfficiencyLow, stripped_heatingValue]

theorem validA_stripped (i : EngineInputs) (pic : ℝ) :
    validA (stripped i) pic = validA i pic := by
  unfold validA
  simp only [stTt45_stripped, stTt3_stripped, stripped_altitude, stripped_mach, stripped_massFlow, stripped_bypassRatio, stripped_fanPressureRatio, stripped_turbineEntryTemp, stripped_efficiencyFan, stripped_efficiencyHPC, stripped_efficiencyHPT, stripped_efficiencyLPT, stripped_efficiencyBurner, stripped_pressureRecoveryInlet, stripped_pressureRecoveryBurner, stripped_pressureRecoveryNozzle, stripped_mechEfficiencyHigh, stripped_mechEfficiencyLow, stripped_heatingValue]

theorem hptStage_stripped (i : EngineInputs) (pic : ℝ) :
    hptStage (stripped i) pic = hptStage i pic := by
  unfold hptStage
  simp only [stTt45_stripped, stTt4_stripped, stPt4_stripped, validA_stripped, stripped_altitude, stripped_mach, stripped_massFlow, stripped_bypassRatio, stripped_fanPressureRatio, stripped_turbineEntryTemp, stripped_efficiencyFan, stripped_efficiencyHPC, stripped_efficiencyHPT, stripped_efficiencyLPT, stripped_efficiencyBurner, stripped_pressureRecoveryInlet, stripped_pressureRecoveryBurner, stripped_pressureRecoveryNozzle, stripped_mechEfficiencyHigh, stripped_mechEfficiencyLow, stripped_heatingValue]

theorem stPt45_stripped (i : EngineInputs) (pic : ℝ) :
    stPt45 (stripped i) pic = stPt45 i pic := by
  unfold stPt45
  simp only [hptStage_stripped, stripped_altitude, stripped_mach, stripped_massFlow, stripped_bypassRatio, stripped_fanPressureRatio, stripped_turbineEntryTemp, stripped_efficiencyFan, stripped_efficiencyHPC, stripped_efficiencyHPT, stripped_efficiencyLPT, stripped_efficiencyBurner, stripped_pressureRecoveryInlet, stripped_pressureRecoveryBurner, stripped_pressureRecoveryNozzle, stripped_mechEfficiencyHigh, stripped_mechEfficiencyLow, stripped_heatingValue]

theorem validB_stripped (i : EngineInputs) (pic : ℝ) :
    validB (stripped i) pic = validB i pic := by
  unfold validB
  simp only [hptStage_stripped, stripped_altitude, stripped_mach, stripped_massFlow, stripped_bypassRatio, stripped_fanPressureRatio, stripped_turbineEntryTemp, stripped_efficiencyFan, stripped_efficiencyHPC, stripped_efficiencyHPT, stripped_efficiencyLPT, stripped_efficiencyBurner, stripped_pressureRecoveryInlet, stripped_pressureRecoveryBurner, stripped_pressureRecoveryNozzle, stripped_mechEfficiencyHigh, stripped_mechEfficiencyLow, stripped_heatingValue]

theorem deltaT_LPT_stripped (i : EngineInputs) (pic : ℝ) :
    deltaT_LPT (stripped i) pic = deltaT_LPT i pic := by
  unfold deltaT_LPT
  simp only [stTt13_stripped, stTt2_stripped, fuelAir_stripped, stripped_altitude, stripped_mach, stripped_massFlow, stripped_bypassRatio, stripped_fanPressureRatio, stripped_turbineEntryTemp, stripped_efficiencyFan, stripped_efficiencyHPC, stripped_efficiencyHPT, stripped_efficiencyLPT, stripped_efficiencyBurner, stripped_pressureRecoveryInlet, stripped_pressureRecoveryBurner, stripped_pressureRecoveryNozzle, stripped_mechEfficiencyHigh, stripped_mechEfficiencyLow, stripped_heatingValue]

theorem stTt5_stripped (i : EngineInputs) (pic : ℝ) :
    stTt5 (stripped i) pic = stTt5 i pic := by
  unfold stTt5
  simp only [stTt45_stripped, deltaT_LPT_stripped, stripped_altitude, stripped_mach, stripped_massFlow, stripped_bypassRatio, stripped_fanPressureRatio, stripped_turbineEntryTemp, stripped_efficiencyFan, stripped_efficiencyHPC, stripped_efficiencyHPT, stripped_efficiencyLPT, stripped_efficiencyBurner, stripped_pressureRecoveryInlet, stripped_pressureRecoveryBurner, stripped_pressureRecoveryNozzle, stripped_mechEfficiencyHigh, stripped_mechEfficiencyLow, stripped_heatingValue]

theorem validC_stripped (i : EngineInputs) (pic : ℝ) :
    validC (stripped i) pic = validC i pic := by
  unfold validC
  simp only [stTt5_stripped, stT0_stripped, validB_stripped, stripped_altitude, stripped_mach, stripped_massFlow, stripped_bypassRatio, stripped_fanPressureRatio, stripped_turbineEntryTemp, stripped_efficiencyFan, stripped_efficiencyHPC, stripped_efficiencyHPT, stripped_efficiencyLPT, stripped_efficiencyBurner, stripped_pressureRecoveryInlet, stripped_pressureRecoveryBurner, stripped_pressureRecoveryNozzle, stripped_mechEfficiencyHigh, stripped_mechEfficiencyLow, stripped_heatingValue]

theorem lptStage_stripped (i : EngineInputs) (pic : ℝ) :
    lptStage (stripped i) pic = lptStage i pic := by
  unfold lptStage
  simp only [stTt5_stripped, stTt45_stripped, stPt45_stripped, validC_stripped, stripped_altitude, stripped_mach, stripped_massFlow, stripped_bypassRatio, stripped_fanPressureRatio, stripped_turbineEntryTemp, stripped_efficiencyFan, stripped_efficiencyHPC, stripped_efficiencyHPT, stripped_efficiencyLPT, stripped_efficiencyBurner, stripped_pressureRecoveryInlet, stripped_pressureRecoveryBurner, stripped_pressureRecoveryNozzle, stripped_mechEfficiencyHigh, stripped_mechEfficiencyLow, stripped_heatingValue]

theorem stPt5_stripped (i : EngineInputs) (pic : ℝ) :
    stPt5 (stripped i) pic = stPt5 i pic := by
  unfold stPt5
  simp only [lptStage_stripped, stripped_altitude, stripped_mach, stripped_massFlow, stripped_bypassRatio, stripped_fanPressureRatio, stripped_turbineEntryTemp, stripped_efficiencyFan, stripped_efficiencyHPC, stripped_efficiencyHPT, stripped_efficiencyLPT, stripped_efficiencyBurner, stripped_pressureRecoveryInlet, stripped_pressureRecoveryBurner, stripped_pressureRecoveryNozzle, stripped_mechEfficiencyHigh, stripped_mechEfficiencyLow, stripped_heatingValue]

theorem validAfterLPT_stripped (i : EngineInputs) (pic : ℝ) :
    validAfterLPT (stripped i) pic = validAfterLPT i pic := by
  unfold validAfterLPT
  simp only [lptStage_stripped, stripped_altitude, stripped_mach, stripped_massFlow, stripped_bypassRatio, stripped_fanPressureRatio, stripped_turbineEntryTemp, stripped_efficiencyFan, stripped_efficiencyHPC, stripped_efficiencyHPT, stripped_efficiencyLPT, stripped_efficiencyBurner, stripped_pressureRecoveryInlet, stripped_pressureRecoveryBurner, stripped_pressureRecoveryNozzle, stripped_mechEfficiencyHigh, stripped_mechEfficiencyLow, stripped_heatingValue]

theorem stPt9_stripped (i : EngineInputs) (pic : ℝ) :
    stPt9 (stripped i) pic = stPt9 i pic := by
  unfold stPt9
  simp only [stPt5_stripped, stripped_altitude, stripped_mach, stripped_massFlow, stripped_bypassRatio, stripped_fanPressureRatio, stripped_turbineEntryTemp, stripped_efficiencyFan, stripped_efficiencyHPC, stripped_efficiencyHPT, stripped_efficiencyLPT, stripped_efficiencyBurner, stripped_pressureRecoveryInlet, stripped_pressureRecoveryBurner, stripped_pressureRecoveryNozzle, stripped_mechEfficiencyHigh, stripped_mechEfficiencyLow, stripped_heatingValue]

theorem coreNozzle_stripped (i : EngineInputs) (pic : ℝ) :
    coreNozzle (stripped i) pic = coreNozzle i pic := by
  unfold coreNozzle
  simp only [validAfterLPT_stripped, stPt9_stripped, stP0_stripped, stTt5_stripped, stripped_altitude, stripped_mach, stripped_massFlow, stripped_bypassRatio, stripped_fanPressureRatio, stripped_turbineEntryTemp, stripped_efficiencyFan, stripped_efficiencyHPC, stripped_efficiencyHPT, stripped_efficiencyLPT, stripped_efficiencyBurner, stripped_pressureRecoveryInlet, stripped_pressureRecoveryBurner, stripped_pressureRecoveryNozzle, stripped_mechEfficiencyHigh, stripped_mechEfficiencyLow, stripped_heatingValue]

theorem validFinal_stripped (i : EngineInputs) (pic : ℝ) :
    validFinal (stripped i) pic = validFinal i pic := by
  unfold validFinal
  simp only [coreNozzle_stripped, stripped_altitude, stripped_mach, stripped_massFlow, stripped_bypassRatio, stripped_fanPressureRatio, stripped_turbineEntryTemp, stripped_efficiencyFan, stripped_efficiencyHPC, stripped_efficiencyHPT, stripped_efficiencyLPT, stripped_efficiencyBurner, stripped_pressureRecoveryInlet, stripped_pressureRecoveryBurner, stripped_pressureRecoveryNozzle, stripped_mechEfficiencyHigh, stripped_mechEfficiencyLow, stripped_heatingValue]

theorem stPt19_stripped (i : EngineInputs) :
    stPt19 (stripped i) = stPt19 i := by
  unfold stPt19
  simp only [stPt13_stripped, stripped_altitude, stripped_mach, stripped_massFlow, stripped_bypassRatio, stripped_fanPressureRatio, stripped_turbineEntryTemp, stripped_efficiencyFan, stripped_efficiencyHPC, stripped_efficiencyHPT, stripped_efficiencyLPT, stripped_efficiencyBurner, stripped_pressureRecoveryInlet, stripped_pressureRecoveryBurner, stripped_pressureRecoveryNozzle, stripped_mechEfficiencyHigh, stripped_mechEfficiencyLow, stripped_heatingValue]

theorem bypassNozzle_stripped (i : EngineInputs) (pic : ℝ) :
    bypassNozzle (stripped i) pic = bypassNozzle i pic := by
  unfold bypassNozzle
  simp only [validFinal_stripped, stPt19_stripped, stP0_stripped, stTt13_stripped, stripped_altitude, stripped_mach, stripped_massFlow, stripped_bypassRatio, stripped_fanPressureRatio, stripped_turbineEntryTemp, stripped_efficiencyFan, stripped_efficiencyHPC, stripped_efficiencyHPT, stripped_efficiencyLPT, stripped_efficiencyBurner, stripped_pressureRecoveryInlet, stripped_pressureRecoveryBurner, stripped_pressureRecoveryNozzle, stripped_mechEfficiencyHigh, stripped_mechEfficiencyLow, stripped_heatingValue]

theorem rho9Of_stripped (i : EngineInputs) (pic : ℝ) :
    rho9Of (stripped i) pic = rho9Of i pic := by
  unfold rho9Of
  simp only [coreNozzle_stripped, stripped_altitude, stripped_mach, stripped_massFlow, stripped_bypassRatio, stripped_fanPressureRatio, stripped_turbineEntryTemp, stripped_efficiencyFan, stripped_efficiencyHPC, stripped_efficiencyHPT, stripped_efficiencyLPT, stripped_efficiencyBurner, stripped_pressureRecoveryInlet, stripped_pressureRecoveryBurner, stripped_pressureRecoveryNozzle, stripped_mechEfficiencyHigh, stripped_mechEfficiencyLow, stripped_heatingValue]

theorem A9Of_stripped (i : EngineInputs) (pic : ℝ) :
    A9Of (stripped i) pic = A9Of i pic := by
  unfold A9Of
  simp only [fuelAir_stripped, rho9Of_stripped, coreNozzle_stripped, stripped_altitude, stripped_mach, stripped_massFlow, stripped_bypassRatio, stripped_fanPressureRatio, stripped_turbineEntryTemp, stripped_efficiencyFan, stripped_efficiencyHPC, stripped_efficiencyHPT, stripped_efficiencyLPT, stripped_efficiencyBurner, stripped_pressureRecoveryInlet, stripped_pressureRecoveryBurner, stripped_pressureRecoveryNozzle, stripped_mechEfficiencyHigh, stripped_mechEfficiencyLow, stripped_heatingValue]

theorem FcoreOf_stripped (i : EngineInputs) (pic : ℝ) :
    FcoreOf (stripped i) pic = FcoreOf i pic := by
  unfold FcoreOf
  simp only [fuelAir_stripped, coreNozzle_stripped, stV0_stripped, stP0_stripped, A9Of_stripped, stripped_altitude, stripped_mach, stripped_massFlow, stripped_bypassRatio, stripped_fanPressureRatio, stripped_turbineEntryTemp, stripped_efficiencyFan, stripped_efficiencyHPC, stripped_efficiencyHPT, stripped_efficiencyLPT, stripped_efficiencyBurner, stripped_pressureRecoveryInlet, stripped_pressureRecoveryBurner, stripped_pressureRecoveryNozzle, stripped_mechEfficiencyHigh, stripped_mechEfficiencyLow, stripped_heatingValue]

theorem rho19Of_stripped (i : EngineInputs) (pic : ℝ) :
    rho19Of (stripped i) pic = rho19Of i pic := by
  unfold rho19Of
  simp only [bypassNozzle_stripped, stripped_altitude, stripped_mach, stripped_massFlow, stripped_bypassRatio, stripped_fanPressureRatio, stripped_turbineEntryTemp, stripped_efficiencyFan, stripped_efficiencyHPC, stripped_efficiencyHPT, stripped_efficiencyLPT, stripped_efficiencyBurner, stripped_pressureRecoveryInlet, stripped_pressureRecoveryBurner, stripped_pressureRecoveryNozzle, stripped_mechEfficiencyHigh, stripped_mechEfficiencyLow, stripped_heatingValue]

theorem A19Of_stripped (i : EngineInputs) (pic : ℝ) :
    A19Of (stripped i) pic = A19Of i pic := by
  unfold A19Of
  simp only [rho19Of_stripped, bypassNozzle_stripped, stripped_altitude, stripped_mach, stripped_massFlow, stripped_bypassRatio, stripped_fanPressureRatio, stripped_turbineEntryTemp, stripped_efficiencyFan, stripped_efficiencyHPC, stripped_efficiencyHPT, stripped_efficiencyLPT, stripped_efficiencyBurner, stripped_pressureRecoveryInlet, stripped_pressureRecoveryBurner, stripped_pressureRecoveryNozzle, stripped_mechEfficiencyHigh, stripped_mechEfficiencyLow, stripped_heatingValue]

theorem FbypassOf_stripped (i : EngineInputs) (pic : ℝ) :
    FbypassOf (stripped i) pic = FbypassOf i pic := by
  unfold FbypassOf
  simp only [bypassNozzle_stripped, stV0_stripped, stP0_stripped, A19Of_stripped, stripped_altitude, stripped_mach, stripped_massFlow, stripped_bypassRatio, stripped_fanPressureRatio, stripped_turbineEntryTemp, stripped_efficiencyFan, stripped_efficiencyHPC, stripped_efficiencyHPT, stripped_efficiencyLPT, stripped_efficiencyBurner, stripped_pressureRecoveryInlet, stripped_pressureRecoveryBurner, stripped_pressureRecoveryNozzle, stripped_mechEfficiencyHigh, stripped_mechEfficiencyLow, stripped_heatingValue]

theorem specificThrustOf_stripped (i : EngineInputs) (pic : ℝ) :
    specificThrustOf (stripped i) pic = specificThrustOf i pic := by
  unfold specificThrustOf
  simp only [validFinal_stripped, FcoreOf_stripped, FbypassOf_stripped, stripped_altitude, stripped_mach, stripped_massFlow, stripped_bypassRatio, stripped_fanPressureRatio, stripped_turbineEntryTemp, stripped_efficiencyFan, stripped_efficiencyHPC, stripped_efficiencyHPT, stripped_efficiencyLPT, stripped_efficiencyBurner, stripped_pressureRecoveryInlet, stripped_pressureRecoveryBurner, stripped_pressureRecoveryNozzle, stripped_mechEfficiencyHigh, stripped_mechEfficiencyLow, stripped_heatingValue]

theorem totalThrustOf_stripped (i : EngineInputs) (pic : ℝ) :
    totalThrustOf (stripped i) pic = totalThrustOf i pic := by
  unfold totalThrustOf
  simp only [specificThrustOf_stripped, stripped_altitude, stripped_mach, stripped_massFlow, stripped_bypassRatio, stripped_fanPressureRatio, stripped_turbineEntryTemp, stripped_efficiencyFan, stripped_efficiencyHPC, stripped_efficiencyHPT, stripped_efficiencyLPT, stripped_efficiencyBurner, stripped_pressureRecoveryInlet, stripped_pressureRecoveryBurner, stripped_pressureRecoveryNozzle, stripped_mechEfficiencyHigh, stripped_mechEfficiencyLow, stripped_heatingValue]

theorem sfcOf_stripped (i : EngineInputs) (pic : ℝ) :
    sfcOf (stripped i) pic = sfcOf i pic := by
  unfold sfcOf
  simp only [validFinal_stripped, totalThrustOf_stripped, fuelAir_stripped, stripped_altitude, stripped_mach, stripped_massFlow, stripped_bypassRatio, stripped_fanPressureRatio, stripped_turbineEntryTemp, stripped_efficiencyFan, stripped_efficiencyHPC, stripped_efficiencyHPT, stripped_efficiencyLPT, stripped_efficiencyBurner, stripped_pressureRecoveryInlet, stripped_pressureRecoveryBurner, stripped_pressureRecoveryNozzle, stripped_mechEfficiencyHigh, stripped_mechEfficiencyLow, stripped_heatingValue]

theorem V9effOf_stripped (i : EngineInputs) (pic : ℝ) :
    V9effOf (stripped i) pic = V9effOf i pic := by
  unfold V9effOf
  simp only [coreNozzle_stripped, rho9Of_stripped, stP0_stripped, stripped_altitude, stripped_mach, stripped_massFlow, stripped_bypassRatio, stripped_fanPressureRatio, stripped_turbineEntryTemp, stripped_efficiencyFan, stripped_efficiencyHPC, stripped_efficiencyHPT, stripped_efficiencyLPT, stripped_efficiencyBurner, stripped_pressureRecoveryInlet, stripped_pressureRecoveryBurner, stripped_pressureRecoveryNozzle, stripped_mechEfficiencyHigh, stripped_mechEfficiencyLow, stripped_heatingValue]

theorem V19effOf_stripped (i : EngineInputs) (pic : ℝ) :
    V19effOf (stripped i) pic = V19effOf i pic := by
  unfold V19effOf
  simp only [bypassNozzle_stripped, rho19Of_stripped, stP0_stripped, stripped_altitude, stripped_mach, stripped_massFlow, stripped_bypassRatio, stripped_fanPressureRatio, stripped_turbineEntryTemp, stripped_efficiencyFan, stripped_efficiencyHPC, stripped_efficiencyHPT, stripped_efficiencyLPT, stripped_efficiencyBurner, stripped_pressureRecoveryInlet, stripped_pressureRecoveryBurner, stripped_pressureRecoveryNozzle, stripped_mechEfficiencyHigh, stripped_mechEfficiencyLow, stripped_heatingValue]

theorem mCoreOf_stripped (i : EngineInputs) :
    mCoreOf (stripped i) = mCoreOf i := by
  unfold mCoreOf
  simp only [stripped_altitude, stripped_mach, stripped_massFlow, stripped_bypassRatio, stripped_fanPressureRatio, stripped_turbineEntryTemp, stripped_efficiencyFan, stripped_efficiencyHPC, stripped_efficiencyHPT, stripped_efficiencyLPT, stripped_efficiencyBurner, stripped_pressureRecoveryInlet, stripped_pressureRecoveryBurner, stripped_pressureRecoveryNozzle, stripped_mechEfficiencyHigh, stripped_mechEfficiencyLow, stripped_heatingValue]

theorem KEoutOf_stripped (i : EngineInputs) (pic : ℝ) :
    KEoutOf (stripped i) pic = KEoutOf i pic := by
  unfold KEoutOf
  simp only [mCoreOf_stripped, fuelAir_stripped, V9effOf_stripped, V19effOf_stripped, stripped_altitude, stripped_mach, stripped_massFlow, stripped_bypassRatio, stripped_fanPressureRatio, stripped_turbineEntryTemp, stripped_efficiencyFan, stripped_efficiencyHPC, stripped_efficiencyHPT, stripped_efficiencyLPT, stripped_efficiencyBurner, stripped_pressureRecoveryInlet, stripped_pressureRecoveryBurner, stripped_pressureRecoveryNozzle, stripped_mechEfficiencyHigh, stripped_mechEfficiencyLow, stripped_heatingValue]

theorem KEinOf_stripped (i : EngineInputs) :
    KEinOf (stripped i) = KEinOf i := by
  unfold KEinOf
  simp only [stV0_stripped, stripped_altitude, stripped_mach, stripped_massFlow, stripped_bypassRatio, stripped_fanPressureRatio, stripped_turbineEntryTemp, stripped_efficiencyFan, stripped_efficiencyHPC, stripped_efficiencyHPT, stripped_efficiencyLPT, stripped_efficiencyBurner, stripped_pressureRecoveryInlet, stripped_pressureRecoveryBurner, stripped_pressureRecoveryNozzle, stripped_mechEfficiencyHigh, stripped_mechEfficiencyLow, stripped_heatingValue]

theorem QinOf_stripped (i : EngineInputs) (pic : ℝ) :
    QinOf (stripped i) pic = QinOf i pic := by
  unfold QinOf
  simp only [mCoreOf_stripped, fuelAir_stripped, stripped_altitude, stripped_mach, stripped_massFlow, stripped_bypassRatio, stripped_fanPressureRatio, stripped_turbineEntryTemp, stripped_efficiencyFan, stripped_efficiencyHPC, stripped_efficiencyHPT, stripped_efficiencyLPT, stripped_efficiencyBurner, stripped_pressureRecoveryInlet, stripped_pressureRecoveryBurner, stripped_pressureRecoveryNozzle, stripped_mechEfficiencyHigh, stripped_mechEfficiencyLow, stripped_heatingValue]

theorem thermalEffOf_stripped (i : EngineInputs) (pic : ℝ) :
    thermalEffOf (stripped i) pic = thermalEffOf i pic := by
  unfold thermalEffOf
  simp only [validFinal_stripped, QinOf_stripped, KEoutOf_stripped, KEinOf_stripped, stripped_altitude, stripped_mach, stripped_massFlow, stripped_bypassRatio, stripped_fanPressureRatio, stripped_turbineEntryTemp, stripped_efficiencyFan, stripped_efficiencyHPC, stripped_efficiencyHPT, stripped_efficiencyLPT, stripped_efficiencyBurner, stripped_pressureRecoveryInlet, stripped_pressureRecoveryBurner, stripped_pressureRecoveryNozzle, stripped_mechEfficiencyHigh, stripped_mechEfficiencyLow, stripped_heatingValue]

theorem propEffRawOf_stripped (i : EngineInputs) (pic : ℝ) :
    propEffRawOf (stripped i) pic = propEffRawOf i pic := by
  unfold propEffRawOf
  simp only [validFinal_stripped, QinOf_stripped, KEoutOf_stripped, KEinOf_stripped, totalThrustOf_stripped, stV0_stripped, stripped_altitude, stripped_mach, stripped_massFlow, stripped_bypassRatio, stripped_fanPressureRatio, stripped_turbineEntryTemp, stripped_efficiencyFan, stripped_efficiencyHPC, stripped_efficiencyHPT, stripped_efficiencyLPT, stripped_efficiencyBurner, stripped_pressureRecoveryInlet, stripped_pressureRecoveryBurner, stripped_pressureRecoveryNozzle, stripped_mechEfficiencyHigh, stripped_mechEfficiencyLow, stripped_heatingValue]

theorem overallEffOf_stripped (i : EngineInputs) (pic : ℝ) :
    overallEffOf (stripped i) pic = overallEffOf i pic := by
  unfold overallEffOf
  simp only [thermalEffOf_stripped, propEffRawOf_stripped, stripped_altitude, stripped_mach, stripped_massFlow, stripped_bypassRatio, stripped_fanPressureRatio, stripped_turbineEntryTemp, stripped_efficiencyFan, stripped_efficiencyHPC, stripped_efficiencyHPT, stripped_efficiencyLPT, stripped_efficiencyBurner, stripped_pressureRecoveryInlet, stripped_pressureRecoveryBurner, stripped_pressureRecoveryNozzle, stripped_mechEfficiencyHigh, stripped_mechEfficiencyLow, stripped_heatingValue]

theorem propEffOf_stripped (i : EngineInputs) (pic : ℝ) :
    propEffOf (stripped i) pic = propEffOf i pic := by
  unfold propEffOf
  simp only [propEffRawOf_stripped, stripped_altitude, stripped_mach, stripped_massFlow, stripped_bypassRatio, stripped_fanPressureRatio, stripped_turbineEntryTemp, stripped_efficiencyFan, stripped_efficiencyHPC, stripped_efficiencyHPT, stripped_efficiencyLPT, stripped_efficiencyBurner, stripped_pressureRecoveryInlet, stripped_pressureRecoveryBurner, stripped_pressureRecoveryNozzle, stripped_mechEfficiencyHigh, stripped_mechEfficiencyLow, stripped_heatingValue]

theorem performanceOf_stripped (i : EngineInputs) (pic : ℝ) :
    performanceOf (stripped i) pic = performanceOf i pic := by
  unfold performanceOf
  simp only [totalThrustOf_stripped, specificThrustOf_stripped, sfcOf_stripped, fuelAir_stripped, bypassNozzle_stripped, coreNozzle_stripped, thermalEffOf_stripped, propEffOf_stripped, overallEffOf_stripped, validFinal_stripped, stripped_altitude, stripped_mach, stripped_massFlow, stripped_bypassRatio, stripped_fanPressureRatio, stripped_turbineEntryTemp, stripped_efficiencyFan, stripped_efficiencyHPC, stripped_efficiencyHPT, stripped_efficiencyLPT, stripped_efficiencyBurner, stripped_pressureRecoveryInlet, stripped_pressureRecoveryBurner, stripped_pressureRecoveryNozzle, stripped_mechEfficiencyHigh, stripped_mechEfficiencyLow, stripped_heatingValue]

theorem stationsOf_stripped (i : EngineInputs) (pic : ℝ) :
    stationsOf (stripped i) pic = stationsOf i pic := by
  unfold stationsOf
  simp only [stT0_stripped, stP0_stripped, stTt2_stripped, stPt2_stripped, stTt13_stripped, stPt13_stripped, stTt3_stripped, stPt3_stripped, stTt4_stripped, stPt4_stripped, stTt45_stripped, stPt45_stripped, stTt5_stripped, stPt5_stripped, coreNozzle_stripped, bypassNozzle_stripped, stripped_altitude, stripped_mach, stripped_massFlow, stripped_bypassRatio, stripped_fanPressureRatio, stripped_turbineEntryTemp, stripped_efficiencyFan, stripped_efficiencyHPC, stripped_efficiencyHPT, stripped_efficiencyLPT, stripped_efficiencyBurner, stripped_pressureRecoveryInlet, stripped_pressureRecoveryBurner, stripped_pressureRecoveryNozzle, stripped_mechEfficiencyHigh, stripped_mechEfficiencyLow, stripped_heatingValue]

theorem calculateCycleAux_stripped (i : EngineInputs) (pic : ℝ) :
    calculateCycleAux (stripped i) pic = calculateCycleAux i pic := by
  unfold calculateCycleAux
  simp only [stationsOf_stripped, performanceOf_stripped, stripped_altitude, stripped_mach, stripped_massFlow, stripped_bypassRatio, stripped_fanPressureRatio, stripped_turbineEntryTemp, stripped_efficiencyFan, stripped_efficiencyHPC, stripped_efficiencyHPT, stripped_efficiencyLPT, stripped_efficiencyBurner, stripped_pressureRecoveryInlet, stripped_pressureRecoveryBurner, stripped_pressureRecoveryNozzle, stripped_mechEfficiencyHigh, stripped_mechEfficiencyLow, stripped_heatingValue]


/-- `calculateCycleAux` never reads `overallPressureRatio`. -/
theorem calculateCycleAux_opr_invariant (i : EngineInputs) (x pic : ℝ) :
    calculateCycleAux { i with overallPressureRatio := x } pic =
      calculateCycleAux i pic := by
  rw [← calculateCycleAux_stripped { i with overallPressureRatio := x } pic,
    ← calculateCycleAux_stripped i pic]
  rfl

/-! ### Real-power helpers: evaluating and bounding `rpow` by rational
powers. -/

theorem rpow_eq_pow_of_mul (x : ℝ) (hx : 0 ≤ x) (d : ℕ) (e : ℝ) (n : ℕ)
    (h : (d : ℝ) * e = (n : ℝ)) : (x ^ d) ^ e = x ^ n := by
  rw [← Real.rpow_natCast x d, ← Real.rpow_mul hx, h, Real.rpow_natCast]

theorem rpow_le_of_pow_le (x c : ℝ) (hx : 0 ≤ x) (hc : 0 ≤ c) (n d : ℕ)
    (hd : d ≠ 0) (e : ℝ) (he : e * (d : ℝ) = (n : ℝ)) (h : x ^ n ≤ c ^ d) :
    x ^ e ≤ c := by
  have key : (x ^ e) ^ d = x ^ n := by
    rw [← Real.rpow_natCast (x ^ e) d, ← Real.rpow_mul hx, he, Real.rpow_natCast]
  have h2 : (x ^ e) ^ d ≤ c ^ d := by rw [key]; exact h
  exact le_of_pow_le_pow_left₀ hd hc h2

theorem le_rpow_of_pow_le (c x : ℝ) (hx : 0 ≤ x) (_hc : 0 ≤ c) (n d : ℕ)
    (hd : d ≠ 0) (e : ℝ) (he : e * (d : ℝ) = (n : ℝ)) (h : c ^ d ≤ x ^ n) :
    c ≤ x ^ e := by
  have key : (x ^ e) ^ d = x ^ n := by
    rw [← Real.rpow_natCast (x ^ e) d, ← Real.rpow_mul hx, he, Real.rpow_natCast]
  have h2 : c ^ d ≤ (x ^ e) ^ d := by rw [key]; exact h
  exact le_of_pow_le_pow_left₀ hd (Real.rpow_nonneg hx e) h2

theorem rpow_le_pow_nat_of_one_le (x : ℝ) (hx : 1 ≤ x) (e : ℝ) (b : ℕ)
    (hb : e ≤ (b : ℝ)) : x ^ e ≤ x ^ b := by
  rw [← Real.rpow_natCast x b]
  exact Real.rpow_le_rpow_of_exponent_le hx hb

theorem pow_nat_le_rpow_of_one_le (x : ℝ) (hx : 1 ≤ x) (e : ℝ) (a : ℕ)
    (ha : (a : ℝ) ≤ e) : x ^ a ≤ x ^ e := by
  rw [← Real.rpow_natCast x a]
  exact Real.rpow_le_rpow_of_exponent_le hx ha

theorem rpow_le_pow_nat_of_le_one (x : ℝ) (hx0 : 0 < x) (hx : x ≤ 1) (e : ℝ)
    (a : ℕ) (ha : (a : ℝ) ≤ e) : x ^ e ≤ x ^ a := by
  rw [← Real.rpow_natCast x a]
  exact Real.rpow_le_rpow_of_exponent_ge hx0 hx ha

theorem pow_nat_le_rpow_of_le_one (x : ℝ) (hx0 : 0 < x) (hx : x ≤ 1) (e : ℝ)
    (b : ℕ) (hb : e ≤ (b : ℝ)) : x ^ b ≤ x ^ e := by
  rw [← Real.rpow_natCast x b]
  exact Real.rpow_le_rpow_of_exponent_ge hx0 hx hb

theorem one_le_rpow_of_one_le (x : ℝ) (hx : 1 ≤ x) (e : ℝ) (he : 0 ≤ e) :
    1 ≤ x ^ e := Real.one_le_rpow hx he

/-- The hot-gas pressure exponent `k/(k-1)` is 133/33, between 4 and 5. -/
theorem gammaExpHot_mul : getGammaExp PROP_HOT_k * (33 : ℝ) = (133 : ℝ) := by
  unfold getGammaExp PROP_HOT_k
  norm_num

theorem gammaExpHot_ge_four : (4 : ℝ) ≤ getGammaExp PROP_HOT_k := by
  unfold getGammaExp PROP_HOT_k
  norm_num

theorem gammaExpHot_le_five : getGammaExp PROP_HOT_k ≤ (5 : ℝ) := by
  unfold getGammaExp PROP_HOT_k
  norm_num

theorem gammaExpHot_nonneg : (0 : ℝ) ≤ getGammaExp PROP_HOT_k := by
  unfold getGammaExp PROP_HOT_k
  norm_num

theorem critRatioHot_nonneg : (0 : ℝ) ≤ critRatioHot := by
  unfold critRatioHot
  exact Real.rpow_nonneg (by unfold PROP_HOT_k; norm_num) _

theorem critRatioHot_pos : (0 : ℝ) < critRatioHot := by
  unfold critRatioHot
  exact Real.rpow_pos_of_pos (by unfold PROP_HOT_k; norm_num) _

theorem one_le_critRatioHot : (1 : ℝ) ≤ critRatioHot := by
  unfold critRatioHot
  exact Real.one_le_rpow (by unfold PROP_HOT_k; norm_num) gammaExpHot_nonneg

theorem critRatioHot_le : critRatioHot ≤ (1.165 : ℝ) ^ (5 : ℕ) := by
  unfold critRatioHot
  have h : (PROP_HOT_k + 1) / 2 = (1.165 : ℝ) := by unfold PROP_HOT_k; norm_num
  rw [h]
  exact rpow_le_pow_nat_of_one_le _ (by norm_num) _ _ gammaExpHot_le_five

theorem critRatioHot_ge : (1.165 : ℝ) ^ (4 : ℕ) ≤ critRatioHot := by
  unfold critRatioHot
  have h : (PROP_HOT_k + 1) / 2 = (1.165 : ℝ) := by unfold PROP_HOT_k; norm_num
  rw [h]
  exact pow_nat_le_rpow_of_one_le _ (by norm_num) _ _ gammaExpHot_ge_four

theorem one_le_critRatioCold : (1 : ℝ) ≤ critRatioCold := by
  unfold critRatioCold
  exact Real.one_le_rpow (by unfold PROP_COLD_k; norm_num)
    (by unfold getGammaExp PROP_COLD_k; norm_num)

/-- Sea-level standard atmosphere values (shared helper). -/
theorem getAtmosphere_zero : getAtmosphere 0 = (288.15, 101325) := by
  simp only [getAtmosphere]
  rw [if_pos (by norm_num : (0 : ℝ) * 1000 ≤ 11000)]
  norm_num [Real.one_rpow]

/-! ### Exact evaluation of the Mach-0, sea-level witness family.
All powers appearing in the gas path evaluate exactly because the fan and
overall pressure ratios are 1.1⁷ and 1.32⁷. -/

theorem fam_stTt4 (M t B m s : ℝ) : stTt4 (famInputs M t B m s) = t := rfl

theorem fam_hpcRatio (M t B m s : ℝ) :
    hpcRatio (famInputs M t B m s) = (1.2 : ℝ) ^ (7 : ℕ) := by
  unfold hpcRatio famInputs
  dsimp only
  rw [show (1.32 : ℝ) ^ (7 : ℕ) / (1.1 : ℝ) ^ (7 : ℕ) = (1.2 : ℝ) ^ (7 : ℕ) by norm_num]
  exact max_eq_right (by norm_num)

theorem fam0_stT0 (t B m s : ℝ) : stT0 (famInputs 0 t B m s) = 288.15 := by
  unfold stT0 famInputs
  dsimp only
  rw [getAtmosphere_zero]

theorem fam0_stP0 (t B m s : ℝ) : stP0 (famInputs 0 t B m s) = 101325 := by
  unfold stP0 famInputs
  dsimp only
  rw [getAtmosphere_zero]

theorem fam0_stV0 (t B m s : ℝ) : stV0 (famInputs 0 t B m s) = 0 := by
  unfold stV0 famInputs
  dsimp only
  rw [zero_mul]

theorem fam0_tauR (t B m s : ℝ) : tauR (famInputs 0 t B m s) = 1 := by
  unfold tauR famInputs PROP_COLD_k
  dsimp only
  norm_num

theorem fam0_piRam (t B m s : ℝ) : piRam (famInputs 0 t B m s) = 1 := by
  unfold piRam
  rw [fam0_tauR]
  exact Real.one_rpow _

theorem fam0_stTt2 (t B m s : ℝ) : stTt2 (famInputs 0 t B m s) = 288.15 := by
  unfold stTt2
  rw [fam0_stT0, fam0_tauR, mul_one]

theorem fam0_stPt2 (t B m s : ℝ) : stPt2 (famInputs 0 t B m s) = 101325 := by
  unfold stPt2
  rw [fam0_stP0, fam0_piRam]
  show (101325 : ℝ) * 1 * (famInputs 0 t B m s).pressureRecoveryInlet = 101325
  unfold famInputs
  dsimp only
  norm_num

theorem fam0_stPt13 (t B m s : ℝ) :
    stPt13 (famInputs 0 t B m s) = 101325 * 1.9487171 := by
  unfold stPt13
  rw [fam0_stPt2]
  show (101325 : ℝ) * (famInputs 0 t B m s).fanPressureRatio = _
  unfold famInputs
  dsimp only
  norm_num

theorem fam0_stTt13 (t B m s : ℝ) :
    stTt13 (famInputs 0 t B m s) = 348.6615 := by
  unfold stTt13 isentropicT
  dsimp only
  rw [if_pos rfl, fam0_stTt2]
  show (288.15 : ℝ) *
      (1 + ((famInputs 0 t B m s).fanPressureRatio ^
        ((PROP_COLD_k - 1) / PROP_COLD_k) - 1) /
        (famInputs 0 t B m s).efficiencyFan) = _
  have hf : (famInputs 0 t B m s).fanPressureRatio = (1.1 : ℝ) ^ (7 : ℕ) := rfl
  have he : (famInputs 0 t B m s).efficiencyFan = 1 := rfl
  rw [hf, he, rpow_eq_pow_of_mul 1.1 (by norm_num) 7 ((PROP_COLD_k - 1) / PROP_COLD_k) 2
    (by unfold PROP_COLD_k; push_cast; norm_num)]
  norm_num

theorem fam0_stTt3 (t B m s : ℝ) :
    stTt3 (famInputs 0 t B m s) ((1.2 : ℝ) ^ (7 : ℕ)) = 502.07256 := by
  unfold stTt3 isentropicT
  dsimp only
  rw [if_pos rfl, fam0_stTt13]
  have he : (famInputs 0 t B m s).efficiencyHPC = 1 := rfl
  rw [he, rpow_eq_pow_of_mul 1.2 (by norm_num) 7 ((PROP_COLD_k - 1) / PROP_COLD_k) 2
    (by unfold PROP_COLD_k; push_cast; norm_num)]
  norm_num

theorem fam0_stPt3 (t B m s : ℝ) :
    stPt3 (famInputs 0 t B m s) ((1.2 : ℝ) ^ (7 : ℕ)) =
      101325 * 1.9487171 * 3.5831808 := by
  unfold stPt3
  rw [fam0_stPt13]
  norm_num

theorem fam0_stPt4 (t B m s : ℝ) :
    stPt4 (famInputs 0 t B m s) ((1.2 : ℝ) ^ (7 : ℕ)) =
      101325 * 1.9487171 * 3.5831808 := by
  unfold stPt4
  rw [fam0_stPt3]
  show _ * (famInputs 0 t B m s).pressureRecoveryBurner = _
  have : (famInputs 0 t B m s).pressureRecoveryBurner = 1 := rfl
  rw [this, mul_one]

theorem fam0_fuelAir_2000 (B m s : ℝ) :
    fuelAir (famInputs 0 2000 B m s) ((1.2 : ℝ) ^ (7 : ℕ)) =
      4488542693 / 102000000000 := by
  unfold fuelAir
  rw [fam_stTt4, fam0_stTt3]
  have h1 : (famInputs 0 2000 B m s).efficiencyBurner = 1 := rfl
  have h2 : (famInputs 0 2000 B m s).heatingValue = 43.1 := rfl
  rw [h1, h2]
  unfold PROP_HOT_cp PROP_COLD_cp
  rw [max_eq_right (by norm_num)]
  norm_num

theorem fam0_stTt45_2000 (B m s : ℝ) :
    stTt45 (famInputs 0 2000 B m s) ((1.2 : ℝ) ^ (7 : ℕ)) =
      4583949608666000 / 2449236481939 := by
  unfold stTt45 deltaT_HPT
  rw [fam_stTt4, fam0_stTt3, fam0_stTt13, fam0_fuelAir_2000]
  have h1 : (famInputs 0 2000 B m s).mechEfficiencyHigh = 1 := rfl
  rw [h1]
  unfold PROP_HOT_cp PROP_COLD_cp
  norm_num

theorem fam0_stTt5_2000_B1 (m s : ℝ) :
    stTt5 (famInputs 0 2000 1 m s) ((1.2 : ℝ) ^ (7 : ℕ)) =
      4335828254066000 / 2449236481939 := by
  unfold stTt5 deltaT_LPT
  rw [fam0_stTt45_2000, fam0_stTt13, fam0_stTt2, fam0_fuelAir_2000]
  have h1 : (famInputs 0 2000 1 m s).mechEfficiencyLow = 1 := rfl
  have h2 : (famInputs 0 2000 1 m s).bypassRatio = 1 := rfl
  rw [h1, h2]
  unfold PROP_HOT_cp PROP_COLD_cp
  norm_num

theorem fam0_stTt5_2000_B0 (m s : ℝ) :
    stTt5 (famInputs 0 2000 0 m s) ((1.2 : ℝ) ^ (7 : ℕ)) =
      4459888931366000 / 2449236481939 := by
  unfold stTt5 deltaT_LPT
  rw [fam0_stTt45_2000, fam0_stTt13, fam0_stTt2, fam0_fuelAir_2000]
  have h1 : (famInputs 0 2000 0 m s).mechEfficiencyLow = 1 := rfl
  have h2 : (famInputs 0 2000 0 m s).bypassRatio = 0 := rfl
  rw [h1, h2]
  unfold PROP_HOT_cp PROP_COLD_cp
  norm_num

theorem fam0_validA_2000 (B m s : ℝ) :
    validA (famInputs 0 2000 B m s) ((1.2 : ℝ) ^ (7 : ℕ)) = true := by
  unfold validA
  rw [if_neg]
  rw [fam0_stTt45_2000, fam0_stTt3]
  norm_num

theorem fam0_hptRatio_2000 (B m s : ℝ) :
    stTt45 (famInputs 0 2000 B m s) ((1.2 : ℝ) ^ (7 : ℕ)) /
      stTt4 (famInputs 0 2000 B m s) = 2291974804333 / 2449236481939 := by
  rw [fam0_stTt45_2000, fam_stTt4]
  norm_num

theorem fam0_validB_2000 (B m s : ℝ) :
    validB (famInputs 0 2000 B m s) ((1.2 : ℝ) ^ (7 : ℕ)) = true := by
  have he : (famInputs 0 2000 B m s).efficiencyHPT = 1 := rfl
  unfold validB hptStage
  dsimp only
  rw [if_neg (by rw [fam0_hptRatio_2000]; norm_num),
    if_neg (by rw [fam0_hptRatio_2000, he]; norm_num)]
  exact fam0_validA_2000 B m s

theorem fam0_stPt45_2000 (B m s : ℝ) :
    stPt45 (famInputs 0 2000 B m s) ((1.2 : ℝ) ^ (7 : ℕ)) =
      101325 * 1.9487171 * 3.5831808 /
        ((2449236481939 / 2291974804333 : ℝ) ^ getGammaExp PROP_HOT_k) := by
  have he : (famInputs 0 2000 B m s).efficiencyHPT = 1 := rfl
  unfold stPt45 hptStage
  dsimp only
  rw [if_neg (by rw [fam0_hptRatio_2000]; norm_num),
    if_neg (by rw [fam0_hptRatio_2000, he]; norm_num)]
  dsimp only
  rw [fam0_stPt4]
  congr 2
  rw [fam0_hptRatio_2000, he]
  norm_num

theorem fam0_lptRatio_2000_B1 (m s : ℝ) :
    stTt5 (famInputs 0 2000 1 m s) ((1.2 : ℝ) ^ (7 : ℕ)) /
      stTt45 (famInputs 0 2000 1 m s) ((1.2 : ℝ) ^ (7 : ℕ)) =
      2167914127033 / 2291974804333 := by
  rw [fam0_stTt5_2000_B1, fam0_stTt45_2000]
  norm_num

theorem fam0_lptRatio_2000_B0 (m s : ℝ) :
    stTt5 (famInputs 0 2000 0 m s) ((1.2 : ℝ) ^ (7 : ℕ)) /
      stTt45 (famInputs 0 2000 0 m s) ((1.2 : ℝ) ^ (7 : ℕ)) =
      2229944465683 / 2291974804333 := by
  rw [fam0_stTt5_2000_B0, fam0_stTt45_2000]
  norm_num

theorem fam0_validC_2000_B1 (m s : ℝ) :
    validC (famInputs 0 2000 1 m s) ((1.2 : ℝ) ^ (7 : ℕ)) = true := by
  unfold validC
  rw [if_neg (by rw [fam0_stTt5_2000_B1, fam0_stT0]; norm_num)]
  exact fam0_validB_2000 1 m s

theorem fam0_validC_2000_B0 (m s : ℝ) :
    validC (famInputs 0 2000 0 m s) ((1.2 : ℝ) ^ (7 : ℕ)) = true := by
  unfold validC
  rw [if_neg (by rw [fam0_stTt5_2000_B0, fam0_stT0]; norm_num)]
  exact fam0_validB_2000 0 m s

theorem fam0_validAfterLPT_2000_B1 (m s : ℝ) :
    validAfterLPT (famInputs 0 2000 1 m s) ((1.2 : ℝ) ^ (7 : ℕ)) = true := by
  have he : (famInputs 0 2000 1 m s).efficiencyLPT = 1 := rfl
  unfold validAfterLPT lptStage
  dsimp only
  rw [if_neg (by rw [fam0_lptRatio_2000_B1]; norm_num),
    if_neg (by rw [fam0_lptRatio_2000_B1, he]; norm_num)]
  exact fam0_validC_2000_B1 m s

theorem fam0_validAfterLPT_2000_B0 (m s : ℝ) :
    validAfterLPT (famInputs 0 2000 0 m s) ((1.2 : ℝ) ^ (7 : ℕ)) = true := by
  have he : (famInputs 0 2000 0 m s).efficiencyLPT = 1 := rfl
  unfold validAfterLPT lptStage
  dsimp only
  rw [if_neg (by rw [fam0_lptRatio_2000_B0]; norm_num),
    if_neg (by rw [fam0_lptRatio_2000_B0, he]; norm_num)]
  exact fam0_validC_2000_B0 m s

theorem fam0_stPt5_2000_B1 (m s : ℝ) :
    stPt5 (famInputs 0 2000 1 m s) ((1.2 : ℝ) ^ (7 : ℕ)) =
      101325 * 1.9487171 * 3.5831808 /
        ((2449236481939 / 2291974804333 : ℝ) ^ getGammaExp PROP_HOT_k) /
        ((2291974804333 / 2167914127033 : ℝ) ^ getGammaExp PROP_HOT_k) := by
  have he : (famInputs 0 2000 1 m s).efficiencyLPT = 1 := rfl
  unfold stPt5 lptStage
  dsimp only
  rw [if_neg (by rw [fam0_lptRatio_2000_B1]; norm_num),
    if_neg (by rw [fam0_lptRatio_2000_B1, he]; norm_num)]
  dsimp only
  rw [fam0_stPt45_2000]
  congr 2
  rw [fam0_lptRatio_2000_B1, he]
  norm_num

theorem fam0_stPt5_2000_B0 (m s : ℝ) :
    stPt5 (famInputs 0 2000 0 m s) ((1.2 : ℝ) ^ (7 : ℕ)) =
      101325 * 1.9487171 * 3.5831808 /
        ((2449236481939 / 2291974804333 : ℝ) ^ getGammaExp PROP_HOT_k) /
        ((2291974804333 / 2229944465683 : ℝ) ^ getGammaExp PROP_HOT_k) := by
  have he : (famInputs 0 2000 0 m s).efficiencyLPT = 1 := rfl
  unfold stPt5 lptStage
  dsimp only
  rw [if_neg (by rw [fam0_lptRatio_2000_B0]; norm_num),
    if_neg (by rw [fam0_lptRatio_2000_B0, he]; norm_num)]
  dsimp only
  rw [fam0_stPt45_2000]
  congr 2
  rw [fam0_lptRatio_2000_B0, he]
  norm_num

theorem fam0_fuelAir_600 (B m s : ℝ) :
    fuelAir (famInputs 0 600 B m s) ((1.2 : ℝ) ^ (7 : ℕ)) =
      463542693 / 106025000000 := by
  unfold fuelAir
  rw [fam_stTt4, fam0_stTt3]
  have h1 : (famInputs 0 600 B m s).efficiencyBurner = 1 := rfl
  have h2 : (famInputs 0 600 B m s).heatingValue = 43.1 := rfl
  rw [h1, h2]
  unfold PROP_HOT_cp PROP_COLD_cp
  rw [max_eq_right (by norm_num)]
  norm_num

theorem fam0_stTt45_600 (B m s : ℝ) :
    stTt45 (famInputs 0 600 B m s) ((1.2 : ℝ) ^ (7 : ℕ)) =
      1142607195669750 / 2449236481939 := by
  unfold stTt45 deltaT_HPT
  rw [fam_stTt4, fam0_stTt3, fam0_stTt13, fam0_fuelAir_600]
  have h1 : (famInputs 0 600 B m s).mechEfficiencyHigh = 1 := rfl
  rw [h1]
  unfold PROP_HOT_cp PROP_COLD_cp
  norm_num

theorem fam0_validA_600 (B m s : ℝ) :
    validA (famInputs 0 600 B m s) ((1.2 : ℝ) ^ (7 : ℕ)) = false := by
  unfold validA
  rw [if_pos]
  rw [fam0_stTt45_600, fam0_stTt3]
  norm_num

/-! ### Facts about the concrete witness points. -/

theorem one_le_aH :
    (1 : ℝ) ≤ (2449236481939 / 2291974804333 : ℝ) ^ getGammaExp PROP_HOT_k :=
  Real.one_le_rpow (by norm_num) gammaExpHot_nonneg

theorem one_le_aL1 :
    (1 : ℝ) ≤ (2291974804333 / 2167914127033 : ℝ) ^ getGammaExp PROP_HOT_k :=
  Real.one_le_rpow (by norm_num) gammaExpHot_nonneg

theorem one_le_aL0 :
    (1 : ℝ) ≤ (2291974804333 / 2229944465683 : ℝ) ^ getGammaExp PROP_HOT_k :=
  Real.one_le_rpow (by norm_num) gammaExpHot_nonneg

theorem exA_pt9_upper :
    stPt9 (famInputs 0 2000 1 1 0.01) ((1.2 : ℝ) ^ (7 : ℕ)) ≤
      101325 * 0.0698260569735168 := by
  unfold stPt9
  have hs : (famInputs 0 2000 1 1 0.01).pressureRecoveryNozzle = 0.01 := rfl
  rw [fam0_stPt5_2000_B1, hs]
  have h1 := one_le_aH
  have h2 := one_le_aL1
  calc 101325 * 1.9487171 * 3.5831808 /
        ((2449236481939 / 2291974804333 : ℝ) ^ getGammaExp PROP_HOT_k) /
        ((2291974804333 / 2167914127033 : ℝ) ^ getGammaExp PROP_HOT_k) * 0.01
      ≤ 101325 * 1.9487171 * 3.5831808 / 1 / 1 * 0.01 := by gcongr
    _ = 101325 * 0.0698260569735168 := by norm_num

theorem exA_not_choked :
    ¬(stPt9 (famInputs 0 2000 1 1 0.01) ((1.2 : ℝ) ^ (7 : ℕ)) /
        stP0 (famInputs 0 2000 1 1 0.01) > critRatioHot) := by
  rw [fam0_stP0]
  intro hgt
  have hub := exA_pt9_upper
  have hcrit := one_le_critRatioHot
  rw [gt_iff_lt, lt_div_iff₀ (by norm_num : (0:ℝ) < 101325)] at hgt
  nlinarith

theorem exA_not_above :
    ¬(stPt9 (famInputs 0 2000 1 1 0.01) ((1.2 : ℝ) ^ (7 : ℕ)) >
        stP0 (famInputs 0 2000 1 1 0.01)) := by
  rw [fam0_stP0]
  intro hgt
  have hub := exA_pt9_upper
  nlinarith

theorem exB_pt9_eq :
    stPt9 (famInputs 0 2000 1 1 0.42) ((1.2 : ℝ) ^ (7 : ℕ)) =
      101325 * 1.9487171 * 3.5831808 /
        ((2449236481939 / 2291974804333 : ℝ) ^ getGammaExp PROP_HOT_k) /
        ((2291974804333 / 2167914127033 : ℝ) ^ getGammaExp PROP_HOT_k) * 0.42 := by
  unfold stPt9
  have hs : (famInputs 0 2000 1 1 0.42).pressureRecoveryNozzle = 0.42 := rfl
  rw [fam0_stPt5_2000_B1, hs]

theorem aH_le_pow5 :
    (2449236481939 / 2291974804333 : ℝ) ^ getGammaExp PROP_HOT_k ≤
      (2449236481939 / 2291974804333 : ℝ) ^ (5 : ℕ) :=
  rpow_le_pow_nat_of_one_le _ (by norm_num) _ _ gammaExpHot_le_five

theorem pow4_le_aH :
    (2449236481939 / 2291974804333 : ℝ) ^ (4 : ℕ) ≤
      (2449236481939 / 2291974804333 : ℝ) ^ getGammaExp PROP_HOT_k :=
  pow_nat_le_rpow_of_one_le _ (by norm_num) _ _ gammaExpHot_ge_four

theorem aL1_le_pow5 :
    (2291974804333 / 2167914127033 : ℝ) ^ getGammaExp PROP_HOT_k ≤
      (2291974804333 / 2167914127033 : ℝ) ^ (5 : ℕ) :=
  rpow_le_pow_nat_of_one_le _ (by norm_num) _ _ gammaExpHot_le_five

theorem pow4_le_aL1 :
    (2291974804333 / 2167914127033 : ℝ) ^ (4 : ℕ) ≤
      (2291974804333 / 2167914127033 : ℝ) ^ getGammaExp PROP_HOT_k :=
  pow_nat_le_rpow_of_one_le _ (by norm_num) _ _ gammaExpHot_ge_four

theorem aL0_le_pow5 :
    (2291974804333 / 2229944465683 : ℝ) ^ getGammaExp PROP_HOT_k ≤
      (2291974804333 / 2229944465683 : ℝ) ^ (5 : ℕ) :=
  rpow_le_pow_nat_of_one_le _ (by norm_num) _ _ gammaExpHot_le_five

theorem exB_pt9_lower :
    101325 * 1.59 ≤ stPt9 (famInputs 0 2000 1 1 0.42) ((1.2 : ℝ) ^ (7 : ℕ)) := by
  rw [exB_pt9_eq]
  have h1 := aH_le_pow5
  have h2 := aL1_le_pow5
  have hp1 : (0:ℝ) < (2449236481939 / 2291974804333 : ℝ) ^ getGammaExp PROP_HOT_k :=
    Real.rpow_pos_of_pos (by norm_num) _
  have hp2 : (0:ℝ) < (2291974804333 / 2167914127033 : ℝ) ^ getGammaExp PROP_HOT_k :=
    Real.rpow_pos_of_pos (by norm_num) _
  calc (101325 * 1.59 : ℝ)
      ≤ 101325 * 1.9487171 * 3.5831808 /
          ((2449236481939 / 2291974804333 : ℝ) ^ (5 : ℕ)) /
          ((2291974804333 / 2167914127033 : ℝ) ^ (5 : ℕ)) * 0.42 := by norm_num
    _ ≤ 101325 * 1.9487171 * 3.5831808 /
          ((2449236481939 / 2291974804333 : ℝ) ^ getGammaExp PROP_HOT_k) /
          ((2291974804333 / 2167914127033 : ℝ) ^ getGammaExp PROP_HOT_k) * 0.42 := by
        gcongr

theorem exB_pt9_upper :
    stPt9 (famInputs 0 2000 1 1 0.42) ((1.2 : ℝ) ^ (7 : ℕ)) ≤
      101325 * 1.8002 := by
  rw [exB_pt9_eq]
  have h1 := pow4_le_aH
  have h2 := pow4_le_aL1
  calc 101325 * 1.9487171 * 3.5831808 /
        ((2449236481939 / 2291974804333 : ℝ) ^ getGammaExp PROP_HOT_k) /
        ((2291974804333 / 2167914127033 : ℝ) ^ getGammaExp PROP_HOT_k) * 0.42
      ≤ 101325 * 1.9487171 * 3.5831808 /
          ((2449236481939 / 2291974804333 : ℝ) ^ (4 : ℕ)) /
          ((2291974804333 / 2167914127033 : ℝ) ^ (4 : ℕ)) * 0.42 := by
        gcongr
    _ ≤ 101325 * 1.8002 := by norm_num

theorem exB_not_choked :
    ¬(stPt9 (famInputs 0 2000 1 1 0.42) ((1.2 : ℝ) ^ (7 : ℕ)) /
        stP0 (famInputs 0 2000 1 1 0.42) > critRatioHot) := by
  rw [fam0_stP0]
  intro hgt
  have hub := exB_pt9_upper
  have hcrit := critRatioHot_ge
  rw [gt_iff_lt, lt_div_iff₀ (by norm_num : (0:ℝ) < 101325)] at hgt
  nlinarith

theorem exB_above :
    stPt9 (famInputs 0 2000 1 1 0.42) ((1.2 : ℝ) ^ (7 : ℕ)) >
      stP0 (famInputs 0 2000 1 1 0.42) := by
  rw [fam0_stP0]
  have := exB_pt9_lower
  nlinarith

theorem exB_validFinal :
    validFinal (famInputs 0 2000 1 1 0.42) ((1.2 : ℝ) ^ (7 : ℕ)) = true := by
  unfold validFinal coreNozzle
  rw [if_pos (fam0_validAfterLPT_2000_B1 1 0.42), if_neg exB_not_choked,
    if_pos exB_above]
  exact fam0_validAfterLPT_2000_B1 1 0.42

theorem exB_pt19_eq :
    stPt19 (famInputs 0 2000 1 1 0.42) = 101325 * 0.818461182 := by
  unfold stPt19
  have hs : (famInputs 0 2000 1 1 0.42).pressureRecoveryNozzle = 0.42 := rfl
  rw [fam0_stPt13, hs]
  norm_num

theorem exB_bypass_not_choked :
    ¬(stPt19 (famInputs 0 2000 1 1 0.42) / stP0 (famInputs 0 2000 1 1 0.42) >
        critRatioCold) := by
  rw [fam0_stP0, exB_pt19_eq]
  intro hgt
  have hcrit := one_le_critRatioCold
  rw [gt_iff_lt, lt_div_iff₀ (by norm_num : (0:ℝ) < 101325)] at hgt
  nlinarith

theorem exB_bypass_below :
    ¬(stPt19 (famInputs 0 2000 1 1 0.42) > stP0 (famInputs 0 2000 1 1 0.42)) := by
  rw [fam0_stP0, exB_pt19_eq]
  norm_num

theorem exA_h1 : validAfterLPT exInvalidCore (hpcRatio exInvalidCore) = true := by
  show validAfterLPT (famInputs 0 2000 1 1 0.01)
    (hpcRatio (famInputs 0 2000 1 1 0.01)) = true
  rw [fam_hpcRatio]
  exact fam0_validAfterLPT_2000_B1 1 0.01

theorem exA_h2 : ¬(stPt9 exInvalidCore (hpcRatio exInvalidCore) /
    stP0 exInvalidCore > critRatioHot) := by
  show ¬(stPt9 (famInputs 0 2000 1 1 0.01) (hpcRatio (famInputs 0 2000 1 1 0.01)) /
    stP0 (famInputs 0 2000 1 1 0.01) > critRatioHot)
  rw [fam_hpcRatio]
  exact exA_not_choked

theorem exA_h3 : ¬(stPt9 exInvalidCore (hpcRatio exInvalidCore) >
    stP0 exInvalidCore) := by
  show ¬(stPt9 (famInputs 0 2000 1 1 0.01) (hpcRatio (famInputs 0 2000 1 1 0.01)) >
    stP0 (famInputs 0 2000 1 1 0.01))
  rw [fam_hpcRatio]
  exact exA_not_above

theorem exB_h1 : (calculateCycle exBypassHole).performance.isValid = true := by
  show validFinal (famInputs 0 2000 1 1 0.42)
    (hpcRatio (famInputs 0 2000 1 1 0.42)) = true
  rw [fam_hpcRatio]
  exact exB_validFinal

theorem exB_h2 : ¬(stPt19 exBypassHole / stP0 exBypassHole > critRatioCold) :=
  exB_bypass_not_choked

theorem exB_h3 : ¬(stPt19 exBypassHole > stP0 exBypassHole) :=
  exB_bypass_below

/-! ### Exact evaluation of the Mach-2.2 point `exPeWindow`
(famInputs 2.2 1328.56 0 1 0.25), used for the propulsive-efficiency
window. -/

theorem sqrt_bounds_of_sq (v lo hi : ℝ) (hlo : 0 ≤ lo) (hhi : 0 ≤ hi)
    (h1 : lo ^ 2 ≤ v) (h2 : v ≤ hi ^ 2) :
    lo ≤ Real.sqrt v ∧ Real.sqrt v ≤ hi := by
  constructor
  · rw [← Real.sqrt_sq hlo]
    exact Real.sqrt_le_sqrt h1
  · rw [← Real.sqrt_sq hhi]
    exact Real.sqrt_le_sqrt h2

theorem gammaExpCold_mul : getGammaExp PROP_COLD_k * ((2 : ℕ) : ℝ) = ((7 : ℕ) : ℝ) := by
  unfold getGammaExp PROP_COLD_k
  push_cast
  norm_num

theorem gammaExpHot_mul_cast :
    getGammaExp PROP_HOT_k * ((33 : ℕ) : ℝ) = ((133 : ℕ) : ℝ) := by
  unfold getGammaExp PROP_HOT_k
  push_cast
  norm_num

theorem exP_hpc : hpcRatio exPeWindow = (1.2 : ℝ) ^ (7 : ℕ) := by
  unfold exPeWindow
  exact fam_hpcRatio 2.2 1328.56 0 1 0.25

theorem exP_stT0 : stT0 exPeWindow = 288.15 := by
  unfold exPeWindow stT0 famInputs
  dsimp only
  rw [getAtmosphere_zero]

theorem exP_stP0 : stP0 exPeWindow = 101325 := by
  unfold exPeWindow stP0 famInputs
  dsimp only
  rw [getAtmosphere_zero]

theorem exP_tauR : tauR exPeWindow = 1.968 := by
  unfold exPeWindow tauR famInputs PROP_COLD_k
  dsimp only
  norm_num

theorem exP_piRam_lb : (10692711 / 1000000 : ℝ) ≤ piRam exPeWindow := by
  unfold piRam
  rw [exP_tauR]
  exact le_rpow_of_pow_le _ _ (by norm_num) (by norm_num) 7 2 (by norm_num) _
    gammaExpCold_mul (by norm_num)

theorem exP_piRam_ub : piRam exPeWindow ≤ (1069271101 / 100000000 : ℝ) := by
  unfold piRam
  rw [exP_tauR]
  exact rpow_le_of_pow_le _ _ (by norm_num) (by norm_num) 7 2 (by norm_num) _
    gammaExpCold_mul (by norm_num)

theorem exP_stTt2 : stTt2 exPeWindow = 567.0792 := by
  unfold stTt2
  rw [exP_stT0, exP_tauR]
  norm_num

theorem exP_stTt13 : stTt13 exPeWindow = 686.165832 := by
  unfold stTt13 isentropicT
  dsimp only
  rw [if_pos rfl, exP_stTt2]
  show (567.0792 : ℝ) *
      (1 + (exPeWindow.fanPressureRatio ^
        ((PROP_COLD_k - 1) / PROP_COLD_k) - 1) / exPeWindow.efficiencyFan) = _
  have hf : exPeWindow.fanPressureRatio = (1.1 : ℝ) ^ (7 : ℕ) := rfl
  have he : exPeWindow.efficiencyFan = 1 := rfl
  rw [hf, he, rpow_eq_pow_of_mul 1.1 (by norm_num) 7 ((PROP_COLD_k - 1) / PROP_COLD_k) 2
    (by unfold PROP_COLD_k; push_cast; norm_num)]
  norm_num

theorem exP_stTt3 : stTt3 exPeWindow ((1.2 : ℝ) ^ (7 : ℕ)) = 988.07879808 := by
  unfold stTt3 isentropicT
  dsimp only
  rw [if_pos rfl, exP_stTt13]
  have he : exPeWindow.efficiencyHPC = 1 := rfl
  rw [he, rpow_eq_pow_of_mul 1.2 (by norm_num) 7 ((PROP_COLD_k - 1) / PROP_COLD_k) 2
    (by unfold PROP_COLD_k; push_cast; norm_num)]
  norm_num

theorem exP_fuelAir : fuelAir exPeWindow ((1.2 : ℝ) ^ (7 : ℕ)) =
    (83566376239 / 6495649375000 : ℝ) := by
  unfold fuelAir
  rw [exP_stTt3]
  have h1 : exPeWindow.efficiencyBurner = 1 := rfl
  have h2 : exPeWindow.heatingValue = 43.1 := rfl
  have h3 : stTt4 exPeWindow = 1328.56 := rfl
  rw [h1, h2, h3]
  unfold PROP_HOT_cp PROP_COLD_cp
  rw [max_eq_right (by norm_num)]
  norm_num

theorem exP_stTt45 : stTt45 exPeWindow ((1.2 : ℝ) ^ (7 : ℕ)) =
    (323243557478677631 / 302643924556994 : ℝ) := by
  unfold stTt45 deltaT_HPT
  rw [exP_stTt3, exP_stTt13, exP_fuelAir]
  have h1 : exPeWindow.mechEfficiencyHigh = 1 := rfl
  have h3 : stTt4 exPeWindow = 1328.56 := rfl
  rw [h1, h3]
  unfold PROP_HOT_cp PROP_COLD_cp
  norm_num

theorem exP_stTt5 : stTt5 exPeWindow ((1.2 : ℝ) ^ (7 : ℕ)) =
    (146073524104233550 / 151321962278497 : ℝ) := by
  unfold stTt5 deltaT_LPT
  rw [exP_stTt45, exP_stTt13, exP_stTt2, exP_fuelAir]
  have h1 : exPeWindow.mechEfficiencyLow = 1 := rfl
  have h2 : exPeWindow.bypassRatio = 0 := rfl
  rw [h1, h2]
  unfold PROP_HOT_cp PROP_COLD_cp
  norm_num

theorem exP_hptRatio : stTt45 exPeWindow ((1.2 : ℝ) ^ (7 : ℕ)) /
    stTt4 exPeWindow = (8081088936966940775 / 10052015310235998716 : ℝ) := by
  have h3 : stTt4 exPeWindow = 1328.56 := rfl
  rw [exP_stTt45, h3]
  norm_num

theorem exP_validA : validA exPeWindow ((1.2 : ℝ) ^ (7 : ℕ)) = true := by
  unfold validA
  rw [if_neg]
  rw [exP_stTt45, exP_stTt3]
  norm_num

theorem exP_validB : validB exPeWindow ((1.2 : ℝ) ^ (7 : ℕ)) = true := by
  have he : exPeWindow.efficiencyHPT = 1 := rfl
  unfold validB hptStage
  dsimp only
  rw [if_neg (by rw [exP_hptRatio]; norm_num),
    if_neg (by rw [exP_hptRatio, he]; norm_num)]
  exact exP_validA

theorem exP_stPt45 : stPt45 exPeWindow ((1.2 : ℝ) ^ (7 : ℕ)) =
    stPt4 exPeWindow ((1.2 : ℝ) ^ (7 : ℕ)) /
      ((10052015310235998716 / 8081088936966940775 : ℝ) ^ getGammaExp PROP_HOT_k) := by
  have he : exPeWindow.efficiencyHPT = 1 := rfl
  unfold stPt45 hptStage
  dsimp only
  rw [if_neg (by rw [exP_hptRatio]; norm_num),
    if_neg (by rw [exP_hptRatio, he]; norm_num)]
  dsimp only
  congr 2
  rw [exP_hptRatio, he]
  norm_num

theorem exP_lptRatio : stTt5 exPeWindow ((1.2 : ℝ) ^ (7 : ℕ)) /
    stTt45 exPeWindow ((1.2 : ℝ) ^ (7 : ℕ)) =
    (292147048208467100 / 323243557478677631 : ℝ) := by
  rw [exP_stTt5, exP_stTt45]
  norm_num

theorem exP_validC : validC exPeWindow ((1.2 : ℝ) ^ (7 : ℕ)) = true := by
  unfold validC
  rw [if_neg (by rw [exP_stTt5, exP_stT0]; norm_num)]
  exact exP_validB

theorem exP_validAfterLPT :
    validAfterLPT exPeWindow ((1.2 : ℝ) ^ (7 : ℕ)) = true := by
  have he : exPeWindow.efficiencyLPT = 1 := rfl
  unfold validAfterLPT lptStage
  dsimp only
  rw [if_neg (by rw [exP_lptRatio]; norm_num),
    if_neg (by rw [exP_lptRatio, he]; norm_num)]
  exact exP_validC

theorem exP_stPt5 : stPt5 exPeWindow ((1.2 : ℝ) ^ (7 : ℕ)) =
    stPt4 exPeWindow ((1.2 : ℝ) ^ (7 : ℕ)) /
      ((10052015310235998716 / 8081088936966940775 : ℝ) ^ getGammaExp PROP_HOT_k) /
      ((323243557478677631 / 292147048208467100 : ℝ) ^ getGammaExp PROP_HOT_k) := by
  have he : exPeWindow.efficiencyLPT = 1 := rfl
  unfold stPt5 lptStage
  dsimp only
  rw [if_neg (by rw [exP_lptRatio]; norm_num),
    if_neg (by rw [exP_lptRatio, he]; norm_num)]
  dsimp only
  rw [exP_stPt45]
  congr 2
  rw [exP_lptRatio, he]
  norm_num

theorem exP_stPt4 : stPt4 exPeWindow ((1.2 : ℝ) ^ (7 : ℕ)) =
    101325 * piRam exPeWindow * (1.1 : ℝ) ^ (7 : ℕ) * (1.2 : ℝ) ^ (7 : ℕ) := by
  unfold stPt4 stPt3 stPt13 stPt2
  rw [exP_stP0]
  have h1 : exPeWindow.pressureRecoveryInlet = 1 := rfl
  have h2 : exPeWindow.fanPressureRatio = (1.1 : ℝ) ^ (7 : ℕ) := rfl
  have h3 : exPeWindow.pressureRecoveryBurner = 1 := rfl
  rw [h1, h2, h3]
  ring

theorem exP_crit_lb : (92530217 / 50000000 : ℝ) ≤ critRatioHot := by
  unfold critRatioHot
  have h : (PROP_HOT_k + 1) / 2 = (1.165 : ℝ) := by unfold PROP_HOT_k; norm_num
  rw [h]
  exact le_rpow_of_pow_le _ _ (by norm_num) (by norm_num) 133 33 (by norm_num) _
    gammaExpHot_mul_cast (by norm_num)

theorem exP_crit_ub : critRatioHot ≤ (37012087 / 20000000 : ℝ) := by
  unfold critRatioHot
  have h : (PROP_HOT_k + 1) / 2 = (1.165 : ℝ) := by unfold PROP_HOT_k; norm_num
  rw [h]
  exact rpow_le_of_pow_le _ _ (by norm_num) (by norm_num) 133 33 (by norm_num) _
    gammaExpHot_mul_cast (by norm_num)

theorem exP_aH_lb : (4819869 / 2000000 : ℝ) ≤
    (10052015310235998716 / 8081088936966940775 : ℝ) ^ getGammaExp PROP_HOT_k :=
  le_rpow_of_pow_le _ _ (by norm_num) (by norm_num) 133 33 (by norm_num) _
    gammaExpHot_mul_cast (by norm_num)

theorem exP_aH_ub :
    (10052015310235998716 / 8081088936966940775 : ℝ) ^ getGammaExp PROP_HOT_k ≤
      (240993451 / 100000000 : ℝ) :=
  rpow_le_of_pow_le _ _ (by norm_num) (by norm_num) 133 33 (by norm_num) _
    gammaExpHot_mul_cast (by norm_num)

theorem exP_aL_lb : (30065931 / 20000000 : ℝ) ≤
    (323243557478677631 / 292147048208467100 : ℝ) ^ getGammaExp PROP_HOT_k :=
  le_rpow_of_pow_le _ _ (by norm_num) (by norm_num) 133 33 (by norm_num) _
    gammaExpHot_mul_cast (by norm_num)

theorem exP_aL_ub :
    (323243557478677631 / 292147048208467100 : ℝ) ^ getGammaExp PROP_HOT_k ≤
      (18791207 / 12500000 : ℝ) :=
  rpow_le_of_pow_le _ _ (by norm_num) (by norm_num) 133 33 (by norm_num) _
    gammaExpHot_mul_cast (by norm_num)

theorem exP_stPt9_eq : stPt9 exPeWindow ((1.2 : ℝ) ^ (7 : ℕ)) =
    101325 * piRam exPeWindow * (1.1 : ℝ) ^ (7 : ℕ) * (1.2 : ℝ) ^ (7 : ℕ) /
      ((10052015310235998716 / 8081088936966940775 : ℝ) ^ getGammaExp PROP_HOT_k) /
      ((323243557478677631 / 292147048208467100 : ℝ) ^ getGammaExp PROP_HOT_k) *
      0.25 := by
  unfold stPt9
  have hs : exPeWindow.pressureRecoveryNozzle = 0.25 := rfl
  rw [exP_stPt5, exP_stPt4, hs]

theorem exP_aH_pos :
    (0 : ℝ) < (10052015310235998716 / 8081088936966940775 : ℝ) ^
      getGammaExp PROP_HOT_k :=
  Real.rpow_pos_of_pos (by norm_num) _

theorem exP_aL_pos :
    (0 : ℝ) < (323243557478677631 / 292147048208467100 : ℝ) ^
      getGammaExp PROP_HOT_k :=
  Real.rpow_pos_of_pos (by norm_num) _

theorem exP_pt9_lb :
    (59103335388012279753312 / 113213945584633925 : ℝ) ≤
      stPt9 exPeWindow ((1.2 : ℝ) ^ (7 : ℕ)) := by
  rw [exP_stPt9_eq]
  have h1 := exP_piRam_lb
  have h2 := exP_aH_ub
  have h3 := exP_aL_ub
  have h4 := exP_aH_pos
  have h5 := exP_aL_pos
  calc (59103335388012279753312 / 113213945584633925 : ℝ)
      = 101325 * (10692711 / 1000000) * (1.1 : ℝ) ^ (7 : ℕ) * (1.2 : ℝ) ^ (7 : ℕ) /
          (240993451 / 100000000) / (18791207 / 12500000) * 0.25 := by norm_num
    _ ≤ 101325 * piRam exPeWindow * (1.1 : ℝ) ^ (7 : ℕ) * (1.2 : ℝ) ^ (7 : ℕ) /
          ((10052015310235998716 / 8081088936966940775 : ℝ) ^ getGammaExp PROP_HOT_k) /
          ((323243557478677631 / 292147048208467100 : ℝ) ^ getGammaExp PROP_HOT_k) *
          0.25 := by
        gcongr

theorem exP_pt9_ub :
    stPt9 exPeWindow ((1.2 : ℝ) ^ (7 : ℕ)) ≤
      (3474622894961005029792 / 6655728651484375 : ℝ) := by
  rw [exP_stPt9_eq]
  have h1 := exP_piRam_ub
  have h2 := exP_aH_lb
  have h3 := exP_aL_lb
  calc 101325 * piRam exPeWindow * (1.1 : ℝ) ^ (7 : ℕ) * (1.2 : ℝ) ^ (7 : ℕ) /
        ((10052015310235998716 / 8081088936966940775 : ℝ) ^ getGammaExp PROP_HOT_k) /
        ((323243557478677631 / 292147048208467100 : ℝ) ^ getGammaExp PROP_HOT_k) *
        0.25
      ≤ 101325 * (1069271101 / 100000000) * (1.1 : ℝ) ^ (7 : ℕ) *
          (1.2 : ℝ) ^ (7 : ℕ) / (4819869 / 2000000) / (30065931 / 20000000) *
          0.25 := by
        gcongr
    _ = (3474622894961005029792 / 6655728651484375 : ℝ) := by norm_num

theorem exP_choked :
    stPt9 exPeWindow ((1.2 : ℝ) ^ (7 : ℕ)) / stP0 exPeWindow > critRatioHot := by
  rw [exP_stP0]
  have hl := exP_pt9_lb
  have hcrit := exP_crit_ub
  rw [gt_iff_lt, lt_div_iff₀ (by norm_num : (0:ℝ) < 101325)]
  nlinarith

theorem exP_coreNozzle :
    coreNozzle exPeWindow ((1.2 : ℝ) ^ (7 : ℕ)) =
      (stPt9 exPeWindow ((1.2 : ℝ) ^ (7 : ℕ)) / critRatioHot,
        stTt5 exPeWindow ((1.2 : ℝ) ^ (7 : ℕ)) * (2 / (PROP_HOT_k + 1)),
        Real.sqrt (PROP_HOT_k * R_GAS *
          (stTt5 exPeWindow ((1.2 : ℝ) ^ (7 : ℕ)) * (2 / (PROP_HOT_k + 1)))),
        true) := by
  unfold coreNozzle
  rw [if_pos exP_validAfterLPT, if_pos exP_choked, exP_validAfterLPT]

theorem exP_validFinal :
    validFinal exPeWindow ((1.2 : ℝ) ^ (7 : ℕ)) = true := by
  unfold validFinal
  rw [exP_coreNozzle]

theorem exP_P9_lb :
    (6754666901487117686092800000 / 23944482306238495401437 : ℝ) ≤
      stPt9 exPeWindow ((1.2 : ℝ) ^ (7 : ℕ)) / critRatioHot := by
  have h := exP_pt9_lb
  have hc := exP_crit_ub
  have hcp := critRatioHot_pos
  calc (6754666901487117686092800000 / 23944482306238495401437 : ℝ)
      = (59103335388012279753312 / 113213945584633925 : ℝ) /
          (37012087 / 20000000 : ℝ) := by norm_num
    _ ≤ stPt9 exPeWindow ((1.2 : ℝ) ^ (7 : ℕ)) / critRatioHot := by
        gcongr

theorem exP_P9_ub :
    stPt9 exPeWindow ((1.2 : ℝ) ^ (7 : ℕ)) / critRatioHot ≤
      (2223758652775043219066880 / 7882957010111572363 : ℝ) := by
  have h := exP_pt9_ub
  have hc := exP_crit_lb
  calc stPt9 exPeWindow ((1.2 : ℝ) ^ (7 : ℕ)) / critRatioHot
      ≤ (3474622894961005029792 / 6655728651484375 : ℝ) /
          (92530217 / 50000000 : ℝ) := by
        gcongr
    _ = (2223758652775043219066880 / 7882957010111572363 : ℝ) := by norm_num

theorem exP_T9_sq_lb : ((112488053 / 200000 : ℝ)) ^ 2 ≤
    PROP_HOT_k * R_GAS *
      (stTt5 exPeWindow ((1.2 : ℝ) ^ (7 : ℕ)) * (2 / (PROP_HOT_k + 1))) := by
  rw [exP_stTt5]
  unfold PROP_HOT_k R_GAS
  norm_num

theorem exP_T9_sq_ub :
    PROP_HOT_k * R_GAS *
      (stTt5 exPeWindow ((1.2 : ℝ) ^ (7 : ℕ)) * (2 / (PROP_HOT_k + 1))) ≤
      ((281220133 / 500000 : ℝ)) ^ 2 := by
  rw [exP_stTt5]
  unfold PROP_HOT_k R_GAS
  norm_num

theorem exP_V9_bounds :
    (112488053 / 200000 : ℝ) ≤ (coreNozzle exPeWindow ((1.2 : ℝ) ^ (7 : ℕ))).2.2.1 ∧
    (coreNozzle exPeWindow ((1.2 : ℝ) ^ (7 : ℕ))).2.2.1 ≤ (281220133 / 500000 : ℝ) := by
  rw [exP_coreNozzle]
  exact sqrt_bounds_of_sq _ _ _ (by norm_num) (by norm_num) exP_T9_sq_lb exP_T9_sq_ub

theorem exP_V0_bounds :
    (1871607573 / 2500000 : ℝ) ≤ stV0 exPeWindow ∧
    stV0 exPeWindow ≤ (3743215157 / 5000000 : ℝ) := by
  unfold stV0
  rw [exP_stT0]
  have hm : exPeWindow.mach = 2.2 := rfl
  rw [hm]
  have hs := sqrt_bounds_of_sq (PROP_COLD_k * R_GAS * 288.15)
    (850730715 / 2500000) (3402922870 / 10000000)
    (by norm_num) (by norm_num)
    (by unfold PROP_COLD_k R_GAS; norm_num)
    (by unfold PROP_COLD_k R_GAS; norm_num)
  constructor
  · nlinarith [hs.1]
  · nlinarith [hs.2]

theorem exP_sqrt_bounds :
    (112488053 / 200000 : ℝ) ≤
      Real.sqrt (PROP_HOT_k * R_GAS *
        (stTt5 exPeWindow ((1.2 : ℝ) ^ (7 : ℕ)) * (2 / (PROP_HOT_k + 1)))) ∧
    Real.sqrt (PROP_HOT_k * R_GAS *
      (stTt5 exPeWindow ((1.2 : ℝ) ^ (7 : ℕ)) * (2 / (PROP_HOT_k + 1)))) ≤
      (281220133 / 500000 : ℝ) :=
  sqrt_bounds_of_sq _ _ _ (by norm_num) (by norm_num) exP_T9_sq_lb exP_T9_sq_ub

theorem exP_RT9_pos :
    (0 : ℝ) < R_GAS * (stTt5 exPeWindow ((1.2 : ℝ) ^ (7 : ℕ)) *
      (2 / (PROP_HOT_k + 1))) := by
  rw [exP_stTt5]
  unfold R_GAS PROP_HOT_k
  norm_num

theorem exP_P9_pos :
    (0 : ℝ) < stPt9 exPeWindow ((1.2 : ℝ) ^ (7 : ℕ)) / critRatioHot := by
  have := exP_P9_lb
  nlinarith

theorem exP_rho9_cond :
    Real.sqrt (PROP_HOT_k * R_GAS *
        (stTt5 exPeWindow ((1.2 : ℝ) ^ (7 : ℕ)) * (2 / (PROP_HOT_k + 1)))) > 1 ∧
    stPt9 exPeWindow ((1.2 : ℝ) ^ (7 : ℕ)) / critRatioHot /
      (R_GAS * (stTt5 exPeWindow ((1.2 : ℝ) ^ (7 : ℕ)) * (2 / (PROP_HOT_k + 1)))) >
      0 := by
  constructor
  · have := exP_sqrt_bounds.1
    norm_num at this ⊢
    linarith
  · exact div_pos exP_P9_pos exP_RT9_pos

theorem exP_x_bounds :
    (83343288 / 100000 : ℝ) ≤ V9effOf exPeWindow ((1.2 : ℝ) ^ (7 : ℕ)) ∧
    V9effOf exPeWindow ((1.2 : ℝ) ^ (7 : ℕ)) ≤ (83343290 / 100000 : ℝ) := by
  have hV9 := exP_sqrt_bounds
  have hP9l := exP_P9_lb
  have hP9u := exP_P9_ub
  have hRT9 := exP_RT9_pos
  unfold V9effOf rho9Of
  rw [exP_coreNozzle]
  dsimp only
  rw [exP_stP0, if_pos exP_rho9_cond]
  set p : ℝ := stPt9 exPeWindow ((1.2 : ℝ) ^ (7 : ℕ)) / critRatioHot with hpdef
  set v : ℝ := Real.sqrt (PROP_HOT_k * R_GAS *
    (stTt5 exPeWindow ((1.2 : ℝ) ^ (7 : ℕ)) * (2 / (PROP_HOT_k + 1)))) with hvdef
  set rt : ℝ := R_GAS * (stTt5 exPeWindow ((1.2 : ℝ) ^ (7 : ℕ)) *
    (2 / (PROP_HOT_k + 1))) with hrtdef
  have hrtval : rt = (8386081018824048105500 / 35258017210889801 : ℝ) := by
    rw [hrtdef, exP_stTt5]
    unfold R_GAS PROP_HOT_k
    norm_num
  have hvpos : (0 : ℝ) < v := by
    have := hV9.1
    nlinarith
  have hppos : (0 : ℝ) < p := exP_P9_pos
  have hstep : p / rt * v = p * v / rt := by ring
  rw [hstep, div_div_eq_mul_div, hrtval]
  have hnum_nonneg : (0 : ℝ) ≤ (p - 101325) * (8386081018824048105500 / 35258017210889801) := by
    nlinarith [hP9l]
  have hden_pos : (0 : ℝ) < p * v := mul_pos hppos hvpos
  have hden_ub : p * v ≤ (2223758652775043219066880 / 7882957010111572363 : ℝ) *
      (281220133 / 500000 : ℝ) :=
    mul_le_mul hP9u hV9.2 (le_of_lt hvpos) (by norm_num)
  have hden_lb : (6754666901487117686092800000 / 23944482306238495401437 : ℝ) *
      (112488053 / 200000 : ℝ) ≤ p * v :=
    mul_le_mul hP9l hV9.1 (by norm_num) (le_trans (by norm_num) hP9l)
  have hnum_lb : ((6754666901487117686092800000 / 23944482306238495401437 : ℝ) - 101325) *
      (8386081018824048105500 / 35258017210889801) ≤
      (p - 101325) * (8386081018824048105500 / 35258017210889801) := by
    nlinarith [hP9l]
  have hnum_ub : (p - 101325) * (8386081018824048105500 / 35258017210889801) ≤
      ((2223758652775043219066880 / 7882957010111572363 : ℝ) - 101325) *
        (8386081018824048105500 / 35258017210889801) := by
    nlinarith [hP9u]
  have hterm_lb : ((6754666901487117686092800000 / 23944482306238495401437 : ℝ) - 101325) *
        (8386081018824048105500 / 35258017210889801) /
        ((2223758652775043219066880 / 7882957010111572363 : ℝ) *
          (281220133 / 500000 : ℝ)) ≤
      (p - 101325) * (8386081018824048105500 / 35258017210889801) / (p * v) :=
    div_le_div₀ hnum_nonneg hnum_lb hden_pos hden_ub
  have hterm_ub : (p - 101325) * (8386081018824048105500 / 35258017210889801) / (p * v) ≤
      ((2223758652775043219066880 / 7882957010111572363 : ℝ) - 101325) *
        (8386081018824048105500 / 35258017210889801) /
        ((6754666901487117686092800000 / 23944482306238495401437 : ℝ) *
          (112488053 / 200000 : ℝ)) := by
    apply div_le_div₀ (by positivity) hnum_ub
      (by positivity) hden_lb
  constructor
  · have hlow : (83343288 / 100000 : ℝ) ≤ (112488053 / 200000 : ℝ) +
        ((6754666901487117686092800000 / 23944482306238495401437 : ℝ) - 101325) *
          (8386081018824048105500 / 35258017210889801) /
          ((2223758652775043219066880 / 7882957010111572363 : ℝ) *
            (281220133 / 500000 : ℝ)) := by norm_num
    linarith [hV9.1]
  · have hhigh : (281220133 / 500000 : ℝ) +
        ((2223758652775043219066880 / 7882957010111572363 : ℝ) - 101325) *
          (8386081018824048105500 / 35258017210889801) /
          ((6754666901487117686092800000 / 23944482306238495401437 : ℝ) *
            (112488053 / 200000 : ℝ)) ≤ (83343290 / 100000 : ℝ) := by norm_num
    linarith [hV9.2]

theorem exP_Fbypass_zero : FbypassOf exPeWindow ((1.2 : ℝ) ^ (7 : ℕ)) = 0 := by
  unfold FbypassOf A19Of
  have h2 : exPeWindow.bypassRatio = 0 := rfl
  rw [h2]
  simp

theorem exP_Fcore_eq : FcoreOf exPeWindow ((1.2 : ℝ) ^ (7 : ℕ)) =
    (1 + (83566376239 / 6495649375000 : ℝ)) *
      V9effOf exPeWindow ((1.2 : ℝ) ^ (7 : ℕ)) - stV0 exPeWindow := by
  unfold FcoreOf A9Of V9effOf rho9Of
  rw [exP_coreNozzle]
  dsimp only
  rw [exP_stP0, exP_fuelAir, if_pos exP_rho9_cond]
  ring

theorem exP_specificThrust_eq :
    specificThrustOf exPeWindow ((1.2 : ℝ) ^ (7 : ℕ)) =
      (1 + (83566376239 / 6495649375000 : ℝ)) *
        V9effOf exPeWindow ((1.2 : ℝ) ^ (7 : ℕ)) - stV0 exPeWindow := by
  unfold specificThrustOf
  rw [if_pos exP_validFinal, exP_Fcore_eq, exP_Fbypass_zero]
  have h2 : exPeWindow.bypassRatio = 0 := rfl
  rw [h2]
  ring

theorem exP_total_eq : totalThrustOf exPeWindow ((1.2 : ℝ) ^ (7 : ℕ)) =
    (1 + (83566376239 / 6495649375000 : ℝ)) *
      V9effOf exPeWindow ((1.2 : ℝ) ^ (7 : ℕ)) - stV0 exPeWindow := by
  unfold totalThrustOf
  rw [exP_specificThrust_eq]
  have h1 : exPeWindow.massFlow = 1 := rfl
  rw [h1, mul_one]

theorem exP_KEout_eq : KEoutOf exPeWindow ((1.2 : ℝ) ^ (7 : ℕ)) =
    0.5 * (1 + (83566376239 / 6495649375000 : ℝ)) *
      V9effOf exPeWindow ((1.2 : ℝ) ^ (7 : ℕ)) ^ 2 := by
  unfold KEoutOf mCoreOf
  rw [exP_fuelAir]
  have h1 : exPeWindow.massFlow = 1 := rfl
  have h2 : exPeWindow.bypassRatio = 0 := rfl
  rw [h1, h2]
  ring

theorem exP_KEin_eq : KEinOf exPeWindow = 0.5 * stV0 exPeWindow ^ 2 := by
  unfold KEinOf
  have h1 : exPeWindow.massFlow = 1 := rfl
  rw [h1]
  ring

theorem exP_Qin_pos : QinOf exPeWindow ((1.2 : ℝ) ^ (7 : ℕ)) > 0 := by
  unfold QinOf mCoreOf
  rw [exP_fuelAir]
  have h1 : exPeWindow.massFlow = 1 := rfl
  have h2 : exPeWindow.bypassRatio = 0 := rfl
  have h3 : exPeWindow.heatingValue = 43.1 := rfl
  rw [h1, h2, h3]
  norm_num

theorem exP_KEdiff_pos :
    KEoutOf exPeWindow ((1.2 : ℝ) ^ (7 : ℕ)) - KEinOf exPeWindow > 0 := by
  rw [exP_KEout_eq, exP_KEin_eq]
  have hx := exP_x_bounds
  have hw := exP_V0_bounds
  have hx2 : (83343288 / 100000 : ℝ) ^ 2 ≤
      V9effOf exPeWindow ((1.2 : ℝ) ^ (7 : ℕ)) ^ 2 :=
    pow_le_pow_left₀ (by norm_num) hx.1 2
  have hw2 : stV0 exPeWindow ^ 2 ≤ (3743215157 / 5000000 : ℝ) ^ 2 :=
    pow_le_pow_left₀ (le_trans (by norm_num) hw.1) hw.2 2
  nlinarith

/-- At `exPeWindow` the raw propulsive efficiency lies strictly between
0.999 and 1, so the final clamp leaves it unchanged. -/
theorem exP_praw_window :
    0.999 < propEffRawOf exPeWindow ((1.2 : ℝ) ^ (7 : ℕ)) ∧
    propEffRawOf exPeWindow ((1.2 : ℝ) ^ (7 : ℕ)) ≤ 1 := by
  have hKE := exP_KEdiff_pos
  have hx := exP_x_bounds
  have hw := exP_V0_bounds
  unfold propEffRawOf
  rw [if_pos ⟨exP_validFinal, exP_Qin_pos, hKE⟩, exP_total_eq, exP_KEout_eq,
    exP_KEin_eq]
  rw [exP_KEout_eq, exP_KEin_eq] at hKE
  set x : ℝ := V9effOf exPeWindow ((1.2 : ℝ) ^ (7 : ℕ)) with hxdef
  set w : ℝ := stV0 exPeWindow with hwdef
  clear_value x w
  obtain ⟨hx1, hx2⟩ := hx
  obtain ⟨hw1, hw2⟩ := hw
  have hwpos : (0 : ℝ) < w := lt_of_lt_of_le (by norm_num) hw1
  have hxpos : (0 : ℝ) < x := lt_of_lt_of_le (by norm_num) hx1
  have hx2sq : x ^ 2 ≤ (83343290 / 100000 : ℝ) ^ 2 :=
    pow_le_pow_left₀ (le_of_lt hxpos) hx2 2
  have hw2sq : (1871607573 / 2500000 : ℝ) ^ 2 ≤ w ^ 2 :=
    pow_le_pow_left₀ (by norm_num) hw1 2
  have hw2sq' : w ^ 2 ≤ (3743215157 / 5000000 : ℝ) ^ 2 :=
    pow_le_pow_left₀ (le_of_lt hwpos) hw2 2
  constructor
  · rw [lt_div_iff₀ hKE]
    have hFV : ((1 + (83566376239 / 6495649375000 : ℝ)) * (83343288 / 100000) -
        (3743215157 / 5000000)) * (1871607573 / 2500000) ≤
        ((1 + (83566376239 / 6495649375000 : ℝ)) * x - w) * w := by
      have hF : ((1 + (83566376239 / 6495649375000 : ℝ)) * (83343288 / 100000) -
          (3743215157 / 5000000)) ≤
          (1 + (83566376239 / 6495649375000 : ℝ)) * x - w := by nlinarith
      exact mul_le_mul hF hw1 (by norm_num) (by nlinarith)
    nlinarith [hx2sq, hw2sq, hFV]
  · rw [div_le_one hKE]
    have hdlb : (83343288 / 100000 : ℝ) - (3743215157 / 5000000 : ℝ) ≤ x - w := by
      linarith
    have hs1 : ((83343288 / 100000 : ℝ) - (3743215157 / 5000000 : ℝ)) ^ 2 ≤
        (x - w) ^ 2 := pow_le_pow_left₀ (by norm_num) hdlb 2
    have hchain : (83566376239 / 6495649375000 : ℝ) * w ^ 2 ≤
        (1 + (83566376239 / 6495649375000 : ℝ)) * (x - w) ^ 2 := by
      have h1 : (83566376239 / 6495649375000 : ℝ) * w ^ 2 ≤
          (83566376239 / 6495649375000 : ℝ) * (3743215157 / 5000000 : ℝ) ^ 2 := by
        nlinarith
      have h2 : (1 + (83566376239 / 6495649375000 : ℝ)) *
          ((83343288 / 100000 : ℝ) - (3743215157 / 5000000 : ℝ)) ^ 2 ≤
          (1 + (83566376239 / 6495649375000 : ℝ)) * (x - w) ^ 2 := by nlinarith
      have h3 : (83566376239 / 6495649375000 : ℝ) * (3743215157 / 5000000 : ℝ) ^ 2 ≤
          (1 + (83566376239 / 6495649375000 : ℝ)) *
            ((83343288 / 100000 : ℝ) - (3743215157 / 5000000 : ℝ)) ^ 2 := by
        norm_num
      linarith
    nlinarith [hchain]

/-! ### Exact evaluation of the Mach-2.2 drag family `famDrag`
(famInputs 2.2 1328.56 0 m 0.05), parametric in the input mass flow.
Its gas-path temperatures coincide with those of `exPeWindow` (same Mach,
TIT and bypass ratio); only the nozzle total pressures differ
(σ_nozzle = 0.05 instead of 0.25), leaving the core nozzle unchoked just
above ambient, so the exhaust velocity is far below the flight velocity. -/

theorem nozExpHot_mul :
    (PROP_HOT_k - 1) / PROP_HOT_k * ((133 : ℕ) : ℝ) = ((33 : ℕ) : ℝ) := by
  unfold PROP_HOT_k
  push_cast
  norm_num

theorem famDrag_hpc (m : ℝ) : hpcRatio (famDrag m) = (1.2 : ℝ) ^ (7 : ℕ) := by
  unfold famDrag
  exact fam_hpcRatio 2.2 1328.56 0 m 0.05

theorem famDrag_stT0 (m : ℝ) : stT0 (famDrag m) = 288.15 := by
  unfold famDrag stT0 famInputs
  dsimp only
  rw [getAtmosphere_zero]

theorem famDrag_stP0 (m : ℝ) : stP0 (famDrag m) = 101325 := by
  unfold famDrag stP0 famInputs
  dsimp only
  rw [getAtmosphere_zero]

theorem famDrag_tauR (m : ℝ) : tauR (famDrag m) = 1.968 := by
  unfold famDrag tauR famInputs PROP_COLD_k
  dsimp only
  norm_num

theorem famDrag_piRam_lb (m : ℝ) :
    (10692711 / 1000000 : ℝ) ≤ piRam (famDrag m) := by
  unfold piRam
  rw [famDrag_tauR]
  exact le_rpow_of_pow_le _ _ (by norm_num) (by norm_num) 7 2 (by norm_num) _
    gammaExpCold_mul (by norm_num)

theorem famDrag_piRam_ub (m : ℝ) :
    piRam (famDrag m) ≤ (1069271101 / 100000000 : ℝ) := by
  unfold piRam
  rw [famDrag_tauR]
  exact rpow_le_of_pow_le _ _ (by norm_num) (by norm_num) 7 2 (by norm_num) _
    gammaExpCold_mul (by norm_num)

theorem famDrag_stTt2 (m : ℝ) : stTt2 (famDrag m) = 567.0792 := by
  unfold stTt2
  rw [famDrag_stT0, famDrag_tauR]
  norm_num

theorem famDrag_stTt13 (m : ℝ) : stTt13 (famDrag m) = 686.165832 := by
  unfold stTt13 isentropicT
  dsimp only
  rw [if_pos rfl, famDrag_stTt2]
  show (567.0792 : ℝ) *
      (1 + ((famDrag m).fanPressureRatio ^
        ((PROP_COLD_k - 1) / PROP_COLD_k) - 1) / (famDrag m).efficiencyFan) = _
  have hf : (famDrag m).fanPressureRatio = (1.1 : ℝ) ^ (7 : ℕ) := rfl
  have he : (famDrag m).efficiencyFan = 1 := rfl
  rw [hf, he, rpow_eq_pow_of_mul 1.1 (by norm_num) 7 ((PROP_COLD_k - 1) / PROP_COLD_k) 2
    (by unfold PROP_COLD_k; push_cast; norm_num)]
  norm_num

theorem famDrag_stTt3 (m : ℝ) :
    stTt3 (famDrag m) ((1.2 : ℝ) ^ (7 : ℕ)) = 988.07879808 := by
  unfold stTt3 isentropicT
  dsimp only
  rw [if_pos rfl, famDrag_stTt13]
  have he : (famDrag m).efficiencyHPC = 1 := rfl
  rw [he, rpow_eq_pow_of_mul 1.2 (by norm_num) 7 ((PROP_COLD_k - 1) / PROP_COLD_k) 2
    (by unfold PROP_COLD_k; push_cast; norm_num)]
  norm_num

theorem famDrag_fuelAir (m : ℝ) : fuelAir (famDrag m) ((1.2 : ℝ) ^ (7 : ℕ)) =
    (83566376239 / 6495649375000 : ℝ) := by
  unfold fuelAir
  rw [famDrag_stTt3]
  have h1 : (famDrag m).efficiencyBurner = 1 := rfl
  have h2 : (famDrag m).heatingValue = 43.1 := rfl
  have h3 : stTt4 (famDrag m) = 1328.56 := rfl
  rw [h1, h2, h3]
  unfold PROP_HOT_cp PROP_COLD_cp
  rw [max_eq_right (by norm_num)]
  norm_num

theorem famDrag_stTt45 (m : ℝ) : stTt45 (famDrag m) ((1.2 : ℝ) ^ (7 : ℕ)) =
    (323243557478677631 / 302643924556994 : ℝ) := by
  unfold stTt45 deltaT_HPT
  rw [famDrag_stTt3, famDrag_stTt13, famDrag_fuelAir]
  have h1 : (famDrag m).mechEfficiencyHigh = 1 := rfl
  have h3 : stTt4 (famDrag m) = 1328.56 := rfl
  rw [h1, h3]
  unfold PROP_HOT_cp PROP_COLD_cp
  norm_num

theorem famDrag_stTt5 (m : ℝ) : stTt5 (famDrag m) ((1.2 : ℝ) ^ (7 : ℕ)) =
    (146073524104233550 / 151321962278497 : ℝ) := by
  unfold stTt5 deltaT_LPT
  rw [famDrag_stTt45, famDrag_stTt13, famDrag_stTt2, famDrag_fuelAir]
  have h1 : (famDrag m).mechEfficiencyLow = 1 := rfl
  have h2 : (famDrag m).bypassRatio = 0 := rfl
  rw [h1, h2]
  unfold PROP_HOT_cp PROP_COLD_cp
  norm_num

theorem famDrag_hptRatio (m : ℝ) : stTt45 (famDrag m) ((1.2 : ℝ) ^ (7 : ℕ)) /
    stTt4 (famDrag m) = (8081088936966940775 / 10052015310235998716 : ℝ) := by
  have h3 : stTt4 (famDrag m) = 1328.56 := rfl
  rw [famDrag_stTt45, h3]
  norm_num

theorem famDrag_validA (m : ℝ) :
    validA (famDrag m) ((1.2 : ℝ) ^ (7 : ℕ)) = true := by
  unfold validA
  rw [if_neg]
  rw [famDrag_stTt45, famDrag_stTt3]
  norm_num

theorem famDrag_validB (m : ℝ) :
    validB (famDrag m) ((1.2 : ℝ) ^ (7 : ℕ)) = true := by
  have he : (famDrag m).efficiencyHPT = 1 := rfl
  unfold validB hptStage
  dsimp only
  rw [if_neg (by rw [famDrag_hptRatio]; norm_num),
    if_neg (by rw [famDrag_hptRatio, he]; norm_num)]
  exact famDrag_validA m

theorem famDrag_stPt45 (m : ℝ) : stPt45 (famDrag m) ((1.2 : ℝ) ^ (7 : ℕ)) =
    stPt4 (famDrag m) ((1.2 : ℝ) ^ (7 : ℕ)) /
      ((10052015310235998716 / 8081088936966940775 : ℝ) ^ getGammaExp PROP_HOT_k) := by
  have he : (famDrag m).efficiencyHPT = 1 := rfl
  unfold stPt45 hptStage
  dsimp only
  rw [if_neg (by rw [famDrag_hptRatio]; norm_num),
    if_neg (by rw [famDrag_hptRatio, he]; norm_num)]
  dsimp only
  congr 2
  rw [famDrag_hptRatio, he]
  norm_num

theorem famDrag_lptRatio (m : ℝ) : stTt5 (famDrag m) ((1.2 : ℝ) ^ (7 : ℕ)) /
    stTt45 (famDrag m) ((1.2 : ℝ) ^ (7 : ℕ)) =
    (292147048208467100 / 323243557478677631 : ℝ) := by
  rw [famDrag_stTt5, famDrag_stTt45]
  norm_num

theorem famDrag_validC (m : ℝ) :
    validC (famDrag m) ((1.2 : ℝ) ^ (7 : ℕ)) = true := by
  unfold validC
  rw [if_neg (by rw [famDrag_stTt5, famDrag_stT0]; norm_num)]
  exact famDrag_validB m

theorem famDrag_validAfterLPT (m : ℝ) :
    validAfterLPT (famDrag m) ((1.2 : ℝ) ^ (7 : ℕ)) = true := by
  have he : (famDrag m).efficiencyLPT = 1 := rfl
  unfold validAfterLPT lptStage
  dsimp only
  rw [if_neg (by rw [famDrag_lptRatio]; norm_num),
    if_neg (by rw [famDrag_lptRatio, he]; norm_num)]
  exact famDrag_validC m

theorem famDrag_stPt5 (m : ℝ) : stPt5 (famDrag m) ((1.2 : ℝ) ^ (7 : ℕ)) =
    stPt4 (famDrag m) ((1.2 : ℝ) ^ (7 : ℕ)) /
      ((10052015310235998716 / 8081088936966940775 : ℝ) ^ getGammaExp PROP_HOT_k) /
      ((323243557478677631 / 292147048208467100 : ℝ) ^ getGammaExp PROP_HOT_k) := by
  have he : (famDrag m).efficiencyLPT = 1 := rfl
  unfold stPt5 lptStage
  dsimp only
  rw [if_neg (by rw [famDrag_lptRatio]; norm_num),
    if_neg (by rw [famDrag_lptRatio, he]; norm_num)]
  dsimp only
  rw [famDrag_stPt45]
  congr 2
  rw [famDrag_lptRatio, he]
  norm_num

theorem famDrag_stPt4 (m : ℝ) : stPt4 (famDrag m) ((1.2 : ℝ) ^ (7 : ℕ)) =
    101325 * piRam (famDrag m) * (1.1 : ℝ) ^ (7 : ℕ) * (1.2 : ℝ) ^ (7 : ℕ) := by
  unfold stPt4 stPt3 stPt13 stPt2
  rw [famDrag_stP0]
  have h1 : (famDrag m).pressureRecoveryInlet = 1 := rfl
  have h2 : (famDrag m).fanPressureRatio = (1.1 : ℝ) ^ (7 : ℕ) := rfl
  have h3 : (famDrag m).pressureRecoveryBurner = 1 := rfl
  rw [h1, h2, h3]
  ring

theorem famDrag_stPt9_eq (m : ℝ) : stPt9 (famDrag m) ((1.2 : ℝ) ^ (7 : ℕ)) =
    101325 * piRam (famDrag m) * (1.1 : ℝ) ^ (7 : ℕ) * (1.2 : ℝ) ^ (7 : ℕ) /
      ((10052015310235998716 / 8081088936966940775 : ℝ) ^ getGammaExp PROP_HOT_k) /
      ((323243557478677631 / 292147048208467100 : ℝ) ^ getGammaExp PROP_HOT_k) *
      0.05 := by
  unfold stPt9
  have hs : (famDrag m).pressureRecoveryNozzle = 0.05 := rfl
  rw [famDrag_stPt5, famDrag_stPt4, hs]

theorem famDrag_pt9_lb (m : ℝ) :
    (59103335388012279753312 / 566069727923169625 : ℝ) ≤
      stPt9 (famDrag m) ((1.2 : ℝ) ^ (7 : ℕ)) := by
  rw [famDrag_stPt9_eq]
  have h1 := famDrag_piRam_lb m
  have h2 := exP_aH_ub
  have h3 := exP_aL_ub
  have h4 := exP_aH_pos
  have h5 := exP_aL_pos
  calc (59103335388012279753312 / 566069727923169625 : ℝ)
      = 101325 * (10692711 / 1000000) * (1.1 : ℝ) ^ (7 : ℕ) * (1.2 : ℝ) ^ (7 : ℕ) /
          (240993451 / 100000000) / (18791207 / 12500000) * 0.05 := by norm_num
    _ ≤ 101325 * piRam (famDrag m) * (1.1 : ℝ) ^ (7 : ℕ) * (1.2 : ℝ) ^ (7 : ℕ) /
          ((10052015310235998716 / 8081088936966940775 : ℝ) ^ getGammaExp PROP_HOT_k) /
          ((323243557478677631 / 292147048208467100 : ℝ) ^ getGammaExp PROP_HOT_k) *
          0.05 := by
        gcongr

theorem famDrag_pt9_ub (m : ℝ) :
    stPt9 (famDrag m) ((1.2 : ℝ) ^ (7 : ℕ)) ≤
      (3474622894961005029792 / 33278643257421875 : ℝ) := by
  rw [famDrag_stPt9_eq]
  have h1 := famDrag_piRam_ub m
  have h2 := exP_aH_lb
  have h3 := exP_aL_lb
  calc 101325 * piRam (famDrag m) * (1.1 : ℝ) ^ (7 : ℕ) * (1.2 : ℝ) ^ (7 : ℕ) /
        ((10052015310235998716 / 8081088936966940775 : ℝ) ^ getGammaExp PROP_HOT_k) /
        ((323243557478677631 / 292147048208467100 : ℝ) ^ getGammaExp PROP_HOT_k) *
        0.05
      ≤ 101325 * (1069271101 / 100000000) * (1.1 : ℝ) ^ (7 : ℕ) *
          (1.2 : ℝ) ^ (7 : ℕ) / (4819869 / 2000000) / (30065931 / 20000000) *
          0.05 := by
        gcongr
    _ = (3474622894961005029792 / 33278643257421875 : ℝ) := by norm_num

theorem famDrag_unchoked (m : ℝ) :
    ¬(stPt9 (famDrag m) ((1.2 : ℝ) ^ (7 : ℕ)) / stP0 (famDrag m) >
      critRatioHot) := by
  rw [famDrag_stP0, gt_iff_lt, not_lt,
    div_le_iff₀ (by norm_num : (0:ℝ) < 101325)]
  have h := famDrag_pt9_ub m
  have hcrit := exP_crit_lb
  nlinarith

theorem famDrag_pt9_above (m : ℝ) :
    stPt9 (famDrag m) ((1.2 : ℝ) ^ (7 : ℕ)) > stP0 (famDrag m) := by
  rw [famDrag_stP0]
  have h := famDrag_pt9_lb m
  rw [gt_iff_lt]
  linarith

theorem famDrag_coreNozzle (m : ℝ) :
    coreNozzle (famDrag m) ((1.2 : ℝ) ^ (7 : ℕ)) =
      (stP0 (famDrag m),
        stTt5 (famDrag m) ((1.2 : ℝ) ^ (7 : ℕ)) *
          (stP0 (famDrag m) / stPt9 (famDrag m) ((1.2 : ℝ) ^ (7 : ℕ))) ^
            ((PROP_HOT_k - 1) / PROP_HOT_k),
        Real.sqrt (max 0 (2 * PROP_HOT_cp *
          (stTt5 (famDrag m) ((1.2 : ℝ) ^ (7 : ℕ)) -
            stTt5 (famDrag m) ((1.2 : ℝ) ^ (7 : ℕ)) *
              (stP0 (famDrag m) / stPt9 (famDrag m) ((1.2 : ℝ) ^ (7 : ℕ))) ^
                ((PROP_HOT_k - 1) / PROP_HOT_k)))),
        true) := by
  unfold coreNozzle
  rw [if_pos (famDrag_validAfterLPT m), if_neg (famDrag_unchoked m),
    if_pos (famDrag_pt9_above m), famDrag_validAfterLPT]

theorem famDrag_validFinal (m : ℝ) :
    validFinal (famDrag m) ((1.2 : ℝ) ^ (7 : ℕ)) = true := by
  unfold validFinal
  rw [famDrag_coreNozzle]

theorem famDrag_x_lb (m : ℝ) :
    (9925 / 10000 : ℝ) ≤
      (stP0 (famDrag m) / stPt9 (famDrag m) ((1.2 : ℝ) ^ (7 : ℕ))) ^
        ((PROP_HOT_k - 1) / PROP_HOT_k) := by
  have hub := famDrag_pt9_ub m
  have hlb := famDrag_pt9_lb m
  have hpos : (0 : ℝ) < stPt9 (famDrag m) ((1.2 : ℝ) ^ (7 : ℕ)) := by linarith
  rw [famDrag_stP0]
  have hxlo : (5823762570048828125 / 6001075811677038048 : ℝ) ≤
      101325 / stPt9 (famDrag m) ((1.2 : ℝ) ^ (7 : ℕ)) := by
    calc (5823762570048828125 / 6001075811677038048 : ℝ)
        = 101325 / (3474622894961005029792 / 33278643257421875 : ℝ) := by
          norm_num
      _ ≤ 101325 / stPt9 (famDrag m) ((1.2 : ℝ) ^ (7 : ℕ)) := by gcongr
  refine le_rpow_of_pow_le _ _ (div_nonneg (by norm_num) hpos.le) (by norm_num)
    33 133 (by norm_num) _ nozExpHot_mul ?_
  calc (9925 / 10000 : ℝ) ^ 133
      ≤ (5823762570048828125 / 6001075811677038048 : ℝ) ^ 33 := by norm_num
    _ ≤ (101325 / stPt9 (famDrag m) ((1.2 : ℝ) ^ (7 : ℕ))) ^ 33 :=
        pow_le_pow_left₀ (by norm_num) hxlo 33

theorem famDrag_V9_ub (m : ℝ) :
    (coreNozzle (famDrag m) ((1.2 : ℝ) ^ (7 : ℕ))).2.2.1 ≤ 130 := by
  rw [famDrag_coreNozzle]
  dsimp only
  have hx := famDrag_x_lb m
  have ht5 := famDrag_stTt5 m
  refine le_trans (Real.sqrt_le_sqrt ?_)
    (le_of_eq (Real.sqrt_sq (by norm_num : (0:ℝ) ≤ 130)))
  refine max_le (by norm_num) ?_
  rw [ht5]
  unfold PROP_HOT_cp
  nlinarith [hx]

theorem famDrag_V9_nonneg (m : ℝ) :
    (0 : ℝ) ≤ (coreNozzle (famDrag m) ((1.2 : ℝ) ^ (7 : ℕ))).2.2.1 := by
  rw [famDrag_coreNozzle]
  exact Real.sqrt_nonneg _

theorem famDrag_V0_lb (m : ℝ) :
    (1871607573 / 2500000 : ℝ) ≤ stV0 (famDrag m) := by
  unfold stV0
  rw [famDrag_stT0]
  have hm : (famDrag m).mach = 2.2 := rfl
  rw [hm]
  have hs := sqrt_bounds_of_sq (PROP_COLD_k * R_GAS * 288.15)
    (850730715 / 2500000) (3402922870 / 10000000)
    (by norm_num) (by norm_num)
    (by unfold PROP_COLD_k R_GAS; norm_num)
    (by unfold PROP_COLD_k R_GAS; norm_num)
  nlinarith [hs.1]

theorem famDrag_Fbypass_zero (m : ℝ) :
    FbypassOf (famDrag m) ((1.2 : ℝ) ^ (7 : ℕ)) = 0 := by
  unfold FbypassOf A19Of
  have h2 : (famDrag m).bypassRatio = 0 := rfl
  rw [h2]
  simp

theorem famDrag_Fcore_eq (m : ℝ) : FcoreOf (famDrag m) ((1.2 : ℝ) ^ (7 : ℕ)) =
    (1 + (83566376239 / 6495649375000 : ℝ)) *
      (coreNozzle (famDrag m) ((1.2 : ℝ) ^ (7 : ℕ))).2.2.1 - stV0 (famDrag m) := by
  unfold FcoreOf
  rw [famDrag_fuelAir]
  have hp : (coreNozzle (famDrag m) ((1.2 : ℝ) ^ (7 : ℕ))).1 = stP0 (famDrag m) := by
    rw [famDrag_coreNozzle]
  rw [hp, sub_self, zero_mul]
  ring

theorem famDrag_st_eq (m : ℝ) :
    specificThrustOf (famDrag m) ((1.2 : ℝ) ^ (7 : ℕ)) =
      (1 + (83566376239 / 6495649375000 : ℝ)) *
        (coreNozzle (famDrag m) ((1.2 : ℝ) ^ (7 : ℕ))).2.2.1 - stV0 (famDrag m) := by
  unfold specificThrustOf
  rw [if_pos (famDrag_validFinal m), famDrag_Fcore_eq, famDrag_Fbypass_zero]
  have h2 : (famDrag m).bypassRatio = 0 := rfl
  rw [h2]
  ring

theorem famDrag_st_neg (m : ℝ) :
    specificThrustOf (famDrag m) ((1.2 : ℝ) ^ (7 : ℕ)) < 0 := by
  rw [famDrag_st_eq]
  have h1 := famDrag_V9_ub m
  have h2 := famDrag_V9_nonneg m
  have h3 := famDrag_V0_lb m
  nlinarith [mul_le_mul_of_nonneg_left h1
    (show (0:ℝ) ≤ 1 + 83566376239 / 6495649375000 by norm_num)]

/-! ### Invalidity, once established, survives every later stage. -/

theorem validB_false_of (i : EngineInputs) (pic : ℝ)
    (h : validA i pic = false) : validB i pic = false := by
  unfold validB hptStage
  dsimp only
  split_ifs <;> simp [h]

theorem validC_false_of (i : EngineInputs) (pic : ℝ)
    (h : validB i pic = false) : validC i pic = false := by
  unfold validC
  split_ifs <;> simp [h]

theorem validAfterLPT_false_of (i : EngineInputs) (pic : ℝ)
    (h : validC i pic = false) : validAfterLPT i pic = false := by
  unfold validAfterLPT lptStage
  dsimp only
  split_ifs <;> simp [h]

theorem validFinal_false_of (i : EngineInputs) (pic : ℝ)
    (h : validAfterLPT i pic = false) : validFinal i pic = false := by
  unfold validFinal coreNozzle
  split_ifs with h1 <;> simp_all

theorem validFinal_false_of_validA (i : EngineInputs) (pic : ℝ)
    (h : validA i pic = false) : validFinal i pic = false :=
  validFinal_false_of i pic (validAfterLPT_false_of i pic
    (validC_false_of i pic (validB_false_of i pic h)))

theorem exD_invalid : (calculateCycle exLowTIT).performance.isValid = false := by
  show validFinal (famInputs 0 600 1 1 0.5) (hpcRatio (famInputs 0 600 1 1 0.5)) = false
  rw [fam_hpcRatio]
  exact validFinal_false_of_validA _ _ (fam0_validA_600 1 1 0.5)


/-- Extracting the kept sample from a skip/keep double guard. -/
theorem some_of_double_ite {α : Type} {c1 c2 : Prop} [Decidable c1] [Decidable c2]
    {x p : α} (h : (if c1 then (none : Option α) else if c2 then some x else none) = some p) :
    ¬c1 ∧ c2 ∧ p = x := by
  by_cases h1 : c1
  · rw [if_pos h1] at h; cases h
  · rw [if_neg h1] at h
    by_cases h2 : c2
    · rw [if_pos h2] at h
      exact ⟨h1, h2, (Option.some.inj h).symm⟩
    · rw [if_neg h2] at h; cases h

/-- Extracting the kept sample from a single keep guard. -/
theorem some_of_single_ite {α : Type} {c : Prop} [Decidable c]
    {x p : α} (h : (if c then some x else (none : Option α)) = some p) :
    c ∧ p = x := by
  by_cases hc : c
  · rw [if_pos hc] at h
    exact ⟨hc, (Option.some.inj h).symm⟩
  · rw [if_neg hc] at h; cases h

/-! ## Claim theorems (structural batch) -/

/-- C5: the atmosphere model returns the troposphere formulas for
h ≤ 11000 m, the pinned-temperature stratosphere formulas for h > 11000 m,
and exactly (288.15 K, 101325 Pa) at altitude 0. -/
theorem c5_atmosphere_model (hKm : ℝ) :
    (hKm * 1000 ≤ 11000 →
      getAtmosphere hKm =
        (288.15 - 0.0065 * (hKm * 1000),
          101325 * (1 - 0.0065 * (hKm * 1000) / 288.15) ^ (5.25588 : ℝ))) ∧
    (11000 < hKm * 1000 →
      getAtmosphere hKm =
        (216.65,
          22632.1 *
            Real.exp (-9.80665 * (hKm * 1000 - 11000) / (287.05 * 216.65)))) ∧
    getAtmosphere 0 = (288.15, 101325) := by
  refine ⟨fun h => ?_, fun h => ?_, ?_⟩
  · simp only [getAtmosphere]
    rw [if_pos h]
  · simp only [getAtmosphere, G, R_GAS]
    rw [if_neg (not_le.mpr h)]
  · simp only [getAtmosphere]
    rw [if_pos (by norm_num : (0 : ℝ) * 1000 ≤ 11000)]
    norm_num [Real.one_rpow]

/-- C5 witness: the theorem applied in the troposphere (5 km) and in the
stratosphere (15 km). -/
theorem c5_atmosphere_model_witness :
    getAtmosphere 5 =
      (288.15 - 0.0065 * (5 * 1000),
        101325 * (1 - 0.0065 * (5 * 1000) / 288.15) ^ (5.25588 : ℝ)) ∧
    getAtmosphere 15 =
      (216.65,
        22632.1 * Real.exp (-9.80665 * (15 * 1000 - 11000) / (287.05 * 216.65))) :=
  ⟨(c5_atmosphere_model 5).1 (by norm_num),
   (c5_atmosphere_model 15).2.1 (by norm_num)⟩

/-- C10: for every input, the returned `massFlowRateAir` and
`fanPressureRatio` performance fields are the input `massFlow` and
`fanPressureRatio`, passed through unchanged even when the cycle is
invalid. -/
theorem c10_mass_flow_and_fpr_passthrough (i : EngineInputs) :
    (calculateCycle i).performance.massFlowRateAir = i.massFlow ∧
    (calculateCycle i).performance.fanPressureRatio = i.fanPressureRatio :=
  ⟨rfl, rfl⟩

/-- C9: two inputs differing only in `efficiencyLPC` produce identical
calculation results; the LPC efficiency is never consumed by the solver. -/
theorem c9_efficiencyLPC_no_influence (i : EngineInputs) (x : ℝ) :
    calculateCycle { i with efficiencyLPC := x } = calculateCycle i := by
  unfold calculateCycle
  have hr : hpcRatio { i with efficiencyLPC := x } = hpcRatio i := rfl
  rw [hr, ← calculateCycleAux_stripped { i with efficiencyLPC := x },
    ← calculateCycleAux_stripped i]
  rfl

/-- C2 (amended): the returned propulsive efficiency is at most 1:
values above 1.0 are clamped to 0.999, and values at or below 1.0 are
returned unchanged (so 0.999 is not an upper bound, but 1.0 is). -/
theorem c2_amended_propulsive_efficiency_le_one (i : EngineInputs) :
    (calculateCycle i).performance.propulsiveEfficiency ≤ 1 := by
  show propEffOf i (hpcRatio i) ≤ 1
  unfold propEffOf
  split_ifs with h
  · norm_num
  · push_neg at h
    linarith

/-- C4: whenever the returned cycle is invalid, the returned thrust,
specific thrust and SFC are all exactly 0. -/
theorem c4_invalid_zeroes_metrics (i : EngineInputs)
    (h : (calculateCycle i).performance.isValid = false) :
    (calculateCycle i).performance.thrust = 0 ∧
    (calculateCycle i).performance.specificThrust = 0 ∧
    (calculateCycle i).performance.sfc = 0 := by
  have hv : validFinal i (hpcRatio i) = false := h
  refine ⟨?_, ?_, ?_⟩
  · show totalThrustOf i (hpcRatio i) = 0
    simp [totalThrustOf, specificThrustOf, hv]
  · show specificThrustOf i (hpcRatio i) = 0
    simp [specificThrustOf, hv]
  · show sfcOf i (hpcRatio i) = 0
    simp [sfcOf, hv]

/-- C6: for every input the reported HPC pressure ratio equals
`max 1.1 (overallPressureRatio / fanPressureRatio)`; and whenever
`overallPressureRatio / fanPressureRatio < 1.1` the floor acts silently:
the reported ratio is exactly 1.1 and the whole result coincides with the
solver body run at ratio 1.1, so the clamp by itself never writes
`isValid = false`. -/
theorem c6_hpc_ratio_floor (i : EngineInputs) :
    (calculateCycle i).performance.hpcPressureRatio =
      max 1.1 (i.overallPressureRatio / i.fanPressureRatio) ∧
    (i.overallPressureRatio / i.fanPressureRatio < 1.1 →
      (calculateCycle i).performance.hpcPressureRatio = 1.1 ∧
      calculateCycle i = calculateCycleAux i 1.1) := by
  constructor
  · rfl
  · intro h
    have h1 : hpcRatio i = 1.1 := max_eq_left h.le
    constructor
    · show hpcRatio i = 1.1
      exact h1
    · show calculateCycleAux i (hpcRatio i) = calculateCycleAux i 1.1
      rw [h1]


/-- C7: every point of the OPR trend sweep comes from an integer sample
opr = 10 + k with k < 51 (so opr ∈ {10, ..., 60}), is kept only when that
sample's solve is valid with positive specific thrust and carries that
solve's sfc and specific thrust; points with opr ≤ the base fan pressure
ratio are skipped, so no returned point has opr ≤ the base fan pressure
ratio and the returned opr values are strictly increasing. -/
theorem c7_opr_trend (base : EngineInputs) :
    List.Forall (fun p : ChartPoint =>
      base.fanPressureRatio < p.opr ∧
      ∃ k : ℕ, k < 51 ∧ p.opr = 10 + (k : ℝ) ∧
        (calculateCycle { base with overallPressureRatio := 10 + (k : ℝ) }).performance.isValid
          = true ∧
        (calculateCycle { base with overallPressureRatio := 10 + (k : ℝ) }).performance.specificThrust
          > 0 ∧
        p.sfc =
          (calculateCycle { base with overallPressureRatio := 10 + (k : ℝ) }).performance.sfc ∧
        p.specificThrust =
          (calculateCycle { base with overallPressureRatio := 10 + (k : ℝ) }).performance.specificThrust)
      (calculateTrends base) ∧
    List.Pairwise (fun p q : ChartPoint => p.opr < q.opr) (calculateTrends base) := by
  constructor
  · rw [List.forall_iff_forall_mem]
    intro p hp
    obtain ⟨k, hk, heq⟩ := List.mem_filterMap.mp hp
    rw [List.mem_range] at hk
    dsimp only at heq
    obtain ⟨h1, h2, rfl⟩ := some_of_double_ite heq
    exact ⟨not_le.mp h1, k, hk, rfl, h2.1, h2.2, rfl, rfl⟩
  · refine List.Pairwise.filterMap _ ?_ (List.pairwise_lt_range 51)
    intro a b hab c hc c' hc'
    rw [Option.mem_def] at hc hc'
    dsimp only at hc hc'
    obtain ⟨-, -, rfl⟩ := some_of_double_ite hc
    obtain ⟨-, -, rfl⟩ := some_of_double_ite hc'
    show (10 : ℝ) + a < 10 + b
    have hcast : (a : ℝ) < b := Nat.cast_lt.mpr hab
    linarith

/-- Length of a flatMap whose blocks all have length at most n. -/
theorem length_flatMap_le {α β : Type} (l : List α) (g : α → List β) (n : ℕ)
    (h : ∀ a, (g a).length ≤ n) : (l.flatMap g).length ≤ l.length * n := by
  induction l with
  | nil => simp
  | cons a t ih =>
    simp only [List.flatMap_cons, List.length_append, List.length_cons]
    have h1 := h a
    rw [Nat.succ_mul]
    omega

/-- C8: every envelope point comes from a grid cell (iStep < 51, jStep < 41)
with Mach iStep/50·2.5 and altitude jStep/40·20 km, solved at that cell's
conditions with the corrected-flow mass flow massFlow·δ/√θ, and kept exactly
when that solve is valid with positive thrust; the result has at most
51·41 = 2091 points and is in Mach-major (altitude-minor) order: any two
points appear with strictly increasing Mach, or with equal Mach and
strictly increasing altitude. -/
theorem c8_envelope_grid (base : EngineInputs) :
    List.Forall (fun p : EnvelopePoint =>
      ∃ iStep jStep : ℕ, iStep < 51 ∧ jStep < 41 ∧
        p.mach = (iStep : ℝ) / 50 * 2.5 ∧ p.altitude = (jStep : ℝ) / 40 * 20 ∧
        p.isValid = true ∧
        (calculateCycle (envCell base iStep jStep)).performance.isValid = true ∧
        (calculateCycle (envCell base iStep jStep)).performance.thrust > 0 ∧
        p.sfc = (calculateCycle (envCell base iStep jStep)).performance.sfc ∧
        p.thrust = (calculateCycle (envCell base iStep jStep)).performance.thrust)
      (calculateEnvelope base) ∧
    List.Forall (fun iStep : ℕ =>
      List.Forall (fun jStep : ℕ =>
        ((calculateCycle (envCell base iStep jStep)).performance.isValid = true ∧
          (calculateCycle (envCell base iStep jStep)).performance.thrust > 0) →
        (⟨(iStep : ℝ) / 50 * 2.5, (jStep : ℝ) / 40 * 20,
          (calculateCycle (envCell base iStep jStep)).performance.sfc,
          (calculateCycle (envCell base iStep jStep)).performance.thrust, true⟩ : EnvelopePoint)
          ∈ calculateEnvelope base) (List.range 41)) (List.range 51) ∧
    (calculateEnvelope base).length ≤ 2091 ∧
    List.Pairwise (fun p q : EnvelopePoint =>
        p.mach < q.mach ∨ (p.mach = q.mach ∧ p.altitude < q.altitude))
      (calculateEnvelope base) := by
  refine ⟨?_, ?_, ?_, ?_⟩
  · rw [List.forall_iff_forall_mem]
    intro p hp
    obtain ⟨iStep, hi, hinner⟩ := List.mem_flatMap.mp hp
    obtain ⟨jStep, hj, heq⟩ := List.mem_filterMap.mp hinner
    rw [List.mem_range] at hi hj
    dsimp only at heq
    obtain ⟨hc, rfl⟩ := some_of_single_ite heq
    exact ⟨iStep, jStep, hi, hj, rfl, rfl, rfl, hc.1, hc.2, rfl, rfl⟩
  · rw [List.forall_iff_forall_mem]
    intro iStep hi
    rw [List.forall_iff_forall_mem]
    intro jStep hj
    intro hcond
    refine List.mem_flatMap.mpr ⟨iStep, hi, List.mem_filterMap.mpr ⟨jStep, hj, ?_⟩⟩
    dsimp only
    split_ifs with hks
    · rfl
    · exact absurd hcond hks
  · refine (length_flatMap_le _ _ 41 fun a =>
      le_trans (List.length_filterMap_le _ _) (by simp)).trans ?_
    simp
  · unfold calculateEnvelope
    rw [List.pairwise_flatMap]
    constructor
    · intro a ha
      refine List.Pairwise.filterMap _ ?_ (List.pairwise_lt_range 41)
      intro j j' hjj c hc c' hc'
      rw [Option.mem_def] at hc hc'
      dsimp only at hc hc'
      obtain ⟨-, rfl⟩ := some_of_single_ite hc
      obtain ⟨-, rfl⟩ := some_of_single_ite hc'
      refine Or.inr ⟨rfl, ?_⟩
      show (j : ℝ) / 40 * 20 < (j' : ℝ) / 40 * 20
      have hcast : (j : ℝ) < j' := Nat.cast_lt.mpr hjj
      linarith
    · refine (List.pairwise_lt_range 51).imp ?_
      intro a b hab x hx y hy
      obtain ⟨j, -, heq⟩ := List.mem_filterMap.mp hx
      obtain ⟨j', -, heq'⟩ := List.mem_filterMap.mp hy
      dsimp only at heq heq'
      obtain ⟨-, rfl⟩ := some_of_single_ite heq
      obtain ⟨-, rfl⟩ := some_of_single_ite heq'
      refine Or.inl ?_
      show (a : ℝ) / 50 * 2.5 < (b : ℝ) / 50 * 2.5
      have hc : (a : ℝ) < b := Nat.cast_lt.mpr hab
      linarith

/-- C1 (amended): for the core stream (5→9) the claim holds: if the cycle is
still feasible entering the nozzle stage and the core nozzle is unchoked with
total pressure at most ambient, the whole cycle is marked invalid.  For the
bypass stream (13→19) it does not: the bypass-nozzle block never writes
`isValid`; in the unchoked below-ambient case the cycle stays valid and the
bypass exit velocity is simply left at 0. -/
theorem c1_amended_core_invalidates_bypass_does_not (i : EngineInputs) :
    (validAfterLPT i (hpcRatio i) = true →
      ¬(stPt9 i (hpcRatio i) / stP0 i > critRatioHot) →
      ¬(stPt9 i (hpcRatio i) > stP0 i) →
      (calculateCycle i).performance.isValid = false) ∧
    ((calculateCycle i).performance.isValid = true →
      ¬(stPt19 i / stP0 i > critRatioCold) →
      ¬(stPt19 i > stP0 i) →
      (calculateCycle i).performance.isValid = true ∧
      (calculateCycle i).performance.bypassVelocity = 0) := by
  constructor
  · intro h1 h2 h3
    show validFinal i (hpcRatio i) = false
    unfold validFinal coreNozzle
    rw [if_pos h1, if_neg h2, if_neg h3]
  · intro h1 h2 h3
    refine ⟨h1, ?_⟩
    have h1' : validFinal i (hpcRatio i) = true := h1
    show (bypassNozzle i (hpcRatio i)).2.2 = 0
    unfold bypassNozzle
    rw [if_pos h1', if_neg h2, if_neg h3]

/-- C1 counterexample: at `exBypassHole` the solver reaches the bypass
nozzle with a still-valid cycle, the bypass nozzle is unchoked and its total
pressure does not exceed ambient, yet the returned `isValid` is true — the
claimed invalidation does not happen for the bypass stream. -/
theorem c1_counterexample_bypass_stays_valid :
    (calculateCycle exBypassHole).performance.isValid = true ∧
    ¬(stPt19 exBypassHole / stP0 exBypassHole > critRatioCold) ∧
    ¬(stPt19 exBypassHole > stP0 exBypassHole) ∧
    ¬((calculateCycle exBypassHole).performance.isValid = false) :=
  ⟨exB_h1, exB_h2, exB_h3,
    fun hf => Bool.noConfusion (exB_h1.symm.trans hf)⟩

/-- C1 amended witness: the core implication fires at `exInvalidCore`
(invalidating the cycle), and the bypass non-invalidation holds at
`exBypassHole`. -/
theorem c1_amended_witness :
    (calculateCycle exInvalidCore).performance.isValid = false ∧
    ((calculateCycle exBypassHole).performance.isValid = true ∧
      (calculateCycle exBypassHole).performance.bypassVelocity = 0) :=
  ⟨(c1_amended_core_invalidates_bypass_does_not exInvalidCore).1
      exA_h1 exA_h2 exA_h3,
   (c1_amended_core_invalidates_bypass_does_not exBypassHole).2
      exB_h1 exB_h2 exB_h3⟩

/-- C3 (amended): for every input with a valid returned cycle, nonnegative
mass flow and nonnegative bypass ratio, the returned SFC is nonnegative;
moreover a nonzero returned SFC forces a strictly positive net thrust,
because the solver only computes an SFC when the net thrust is positive.
The net thrust itself can be strictly negative for a valid cycle even with
nonnegative mass flow (`exDrag`), so the thrust half of the claim is
dropped rather than weakened. -/
theorem c3_amended_sfc_thrust_nonneg (i : EngineInputs)
    (_hv : (calculateCycle i).performance.isValid = true)
    (hm : 0 ≤ i.massFlow) (hB : 0 ≤ i.bypassRatio) :
    0 ≤ (calculateCycle i).performance.sfc ∧
    ((calculateCycle i).performance.sfc ≠ 0 →
      0 < (calculateCycle i).performance.thrust) := by
  constructor
  · show 0 ≤ sfcOf i (hpcRatio i)
    unfold sfcOf
    split_ifs with h
    · have hf : 0 ≤ fuelAir i (hpcRatio i) := le_max_left 0 _
      have h1B : (0 : ℝ) < 1 + i.bypassRatio := by linarith
      exact div_nonneg
        (mul_nonneg (mul_nonneg hf (div_nonneg hm h1B.le)) (by norm_num))
        h.2.le
    · exact le_refl 0
  · intro hne
    have hne' : sfcOf i (hpcRatio i) ≠ 0 := hne
    show 0 < totalThrustOf i (hpcRatio i)
    unfold sfcOf at hne'
    by_contra hle
    exact hne' (if_neg fun hcon => hle hcon.2)

/-- C3 counterexample: at `exDrag` (Mach 2.2, nonnegative mass flow and
bypass ratio) the cycle is valid yet the net thrust is strictly negative —
the unchoked core exhaust leaves far slower than the flight speed, so the
engine produces net drag; and at `exDragNeg` (the same gas path with mass
flow −1) the cycle is valid and the reported SFC is strictly negative, so
the SFC half of the claim indeed needs a nonnegative mass flow. -/
theorem c3_counterexample_negative_thrust :
    ((calculateCycle exDrag).performance.isValid = true ∧
      0 ≤ exDrag.massFlow ∧ 0 ≤ exDrag.bypassRatio ∧
      (calculateCycle exDrag).performance.thrust < 0) ∧
    ((calculateCycle exDragNeg).performance.isValid = true ∧
      (calculateCycle exDragNeg).performance.sfc < 0) := by
  constructor
  · refine ⟨?_, ?_, ?_, ?_⟩
    · show validFinal (famDrag 1) (hpcRatio (famDrag 1)) = true
      rw [famDrag_hpc]
      exact famDrag_validFinal 1
    · exact zero_le_one
    · exact le_refl 0
    · show totalThrustOf (famDrag 1) (hpcRatio (famDrag 1)) < 0
      rw [famDrag_hpc]
      unfold totalThrustOf
      have hmf : (famDrag 1).massFlow = 1 := rfl
      rw [hmf, mul_one]
      exact famDrag_st_neg 1
  · constructor
    · show validFinal (famDrag (-1)) (hpcRatio (famDrag (-1))) = true
      rw [famDrag_hpc]
      exact famDrag_validFinal (-1)
    · show sfcOf (famDrag (-1)) (hpcRatio (famDrag (-1))) < 0
      rw [famDrag_hpc]
      have htot : totalThrustOf (famDrag (-1)) ((1.2 : ℝ) ^ (7 : ℕ)) > 0 := by
        unfold totalThrustOf
        have hmf : (famDrag (-1)).massFlow = -1 := rfl
        rw [hmf, mul_neg_one]
        exact neg_pos.mpr (famDrag_st_neg (-1))
      unfold sfcOf
      rw [if_pos ⟨famDrag_validFinal (-1), htot⟩, famDrag_fuelAir]
      have hmf : (famDrag (-1)).massFlow = -1 := rfl
      have hB : (famDrag (-1)).bypassRatio = 0 := rfl
      rw [hmf, hB]
      exact div_neg_of_neg_of_pos (by norm_num) htot

/-- C3 amended witness: the amended theorem applied at `exBypassHole`
(valid cycle, unit mass flow, unit bypass ratio). -/
theorem c3_amended_witness :
    0 ≤ (calculateCycle exBypassHole).performance.sfc ∧
    ((calculateCycle exBypassHole).performance.sfc ≠ 0 →
      0 < (calculateCycle exBypassHole).performance.thrust) :=
  c3_amended_sfc_thrust_nonneg exBypassHole exB_h1
    (by norm_num [exBypassHole, famInputs])
    (by norm_num [exBypassHole, famInputs])

/-- C4 witness: the theorem applied at the invalid point `exLowTIT`. -/
theorem c4_invalid_zeroes_metrics_witness :
    (calculateCycle exLowTIT).performance.isValid = false ∧
    ((calculateCycle exLowTIT).performance.thrust = 0 ∧
      (calculateCycle exLowTIT).performance.specificThrust = 0 ∧
      (calculateCycle exLowTIT).performance.sfc = 0) :=
  ⟨exD_invalid, c4_invalid_zeroes_metrics exLowTIT exD_invalid⟩

/-- C6 witness: the clamp implication of the floor theorem fires at
`exClampFloor` (OPR = 1, FPR = 2, so OPR/FPR = 0.5 < 1.1). -/
theorem c6_hpc_ratio_floor_witness :
    (calculateCycle exClampFloor).performance.hpcPressureRatio = 1.1 ∧
    calculateCycle exClampFloor = calculateCycleAux exClampFloor 1.1 :=
  (c6_hpc_ratio_floor exClampFloor).2
    (by norm_num [exClampFloor, famInputs])

/-- C2 counterexample: at `exPeWindow` (Mach 2.2, TIT 1328.56 K, zero
bypass, σ_nozzle 0.25) the raw propulsive efficiency lies strictly between
0.999 and 1, so the final clamp (which only fires above 1.0) returns it
unchanged and the returned propulsive efficiency exceeds 0.999. -/
theorem c2_counterexample_pe_exceeds :
    0.999 < (calculateCycle exPeWindow).performance.propulsiveEfficiency := by
  show 0.999 < propEffOf exPeWindow (hpcRatio exPeWindow)
  rw [exP_hpc]
  unfold propEffOf
  have hwin := exP_praw_window
  rw [if_neg (not_lt.mpr (le_trans hwin.2 (by norm_num)))]
  exact hwin.1

end AeroEngine
